import Mathlib

/-!
Verification of the GutFlow digestive simulation (src/GutFlow.py).

This file gives a shallow embedding of the core simulation of GutFlow:
the data records (Food, Environment, Conditions, Microbiome, hormone map),
the organ units (Mouth, Esophagus, Stomach, Duodenum, SmallIntestine,
LargeIntestine, Rectum), and the Body orchestrator with its stage state
machine (Body.tick, Body.eat, Body.metabolize), plus the external command
interface (skip, stress, temperature, condition toggles).

Modelling choices:
* Python floats are embedded as exact rationals; all the arithmetic
  in GutFlow is elementary (+, -, *, /, min, max, floor), so the rational
  semantics mirrors the float code except for rounding at the last bits.
* Python Optional values are Option; places where the source would
  dereference None (an AttributeError) are embedded as functions
  returning Option, with none marking the exception.
* Hormone levels are the literal strings the source uses; the hormone
  dict has a fixed key set in the source, so it is embedded as a record
  with one String field per hormone.
* Body.tick in the source has three phases: hormone and stage-transition
  bookkeeping (lines 318-328), the stage dispatch (lines 330-396), and the
  microbiome/counter postlude (lines 398-404).  The embedding factors tick
  into preTick, dispatch and postTick accordingly; Body.tick is their
  composition.
-/

set_option maxRecDepth 10000

/-- Shorter timers for demo runs: TIME_MAP of GutFlow.py, lines 29-34. -/
def TIME_MAP_Stomach : ℕ := 6
/-- Duodenum entry of TIME_MAP. -/
def TIME_MAP_Duodenum : ℕ := 2
/-- SmallIntestine entry of TIME_MAP. -/
def TIME_MAP_SmallIntestine : ℕ := 18
/-- LargeIntestine entry of TIME_MAP. -/
def TIME_MAP_LargeIntestine : ℕ := 36

/-- Food record (GutFlow.py lines 64-70). -/
structure Food where
  name : String
  carbs : ℚ
  proteins : ℚ
  fats : ℚ
  fiber : ℚ
deriving DecidableEq, Repr

/-- Environment record (GutFlow.py lines 73-76). -/
structure Environment where
  temperature_c : ℚ
  stress_level : ℤ
deriving DecidableEq, Repr

/-- Conditions record (GutFlow.py lines 79-85). -/
structure Conditions where
  gastroparesis : Bool
  gerd : Bool
  malabsorption : Bool
  diabetes : Bool
  obesity : Bool
deriving DecidableEq, Repr

/-- Microbiome record (GutFlow.py lines 37-42). -/
structure Microbiome where
  good_bacteria : ℚ
  bad_bacteria : ℚ
  fiber_intake : ℚ
  antibiotic : Bool
deriving DecidableEq, Repr

/-- Default Microbiome (field defaults of the dataclass, lines 39-42). -/
def Microbiome.init : Microbiome :=
  { good_bacteria := 70, bad_bacteria := 30, fiber_intake := 0, antibiotic := false }

/-- Microbiome.tick (GutFlow.py lines 44-57): fiber supports good bacteria,
antibiotics harm the microbiome, then re-normalize to a total of 100 when the
total is positive. -/
def Microbiome.tick (m : Microbiome) : Microbiome :=
  let g1 : ℚ := if m.fiber_intake > 0 then min 100 (m.good_bacteria + 1.2) else m.good_bacteria
  let b1 : ℚ := if m.fiber_intake > 0 then max 0 (m.bad_bacteria - 0.6) else m.bad_bacteria
  let g2 : ℚ := if m.antibiotic then max 0 (g1 - 5) else g1
  let b2 : ℚ := if m.antibiotic then max 0 (b1 - 2) else b1
  let total : ℚ := g2 + b2
  if total > 0 then
    { m with good_bacteria := g2 / total * 100, bad_bacteria := b2 / total * 100 }
  else
    { m with good_bacteria := g2, bad_bacteria := b2 }

/-- Microbiome.gas_production heuristic (GutFlow.py lines 59-61), without the
2-decimal display rounding. -/
def Microbiome.gas_production (m : Microbiome) : ℚ :=
  m.bad_bacteria * 0.08 + m.fiber_intake * 0.05

/-- Hormone map (GutFlow.py lines 220-226).  The source stores the hormones in
a dict whose key set is fixed at construction; each value is one of the
qualitative level strings. -/
structure Hormones where
  parasympathetic_stim : String
  gastrin : String
  ghrelin : String
  insulin : String
  leptin : String
deriving DecidableEq, Repr

/-- Initial hormone map of Body.__init__ (lines 220-226): all Normal. -/
def Hormones.init : Hormones :=
  { parasympathetic_stim := "Normal", gastrin := "Normal", ghrelin := "Normal",
    insulin := "Normal", leptin := "Normal" }

/-- Mouth.process (GutFlow.py lines 92-104): computes a saliva factor from
parasympathetic tone and stress, applies a light initial carb breakdown to the
food (mutated in place in the source), and reports the saliva factor. -/
def Mouth.process (food : Food) (hormones : Hormones) (env : Environment) : Food × ℚ :=
  let parasym := hormones.parasympathetic_stim
  let saliva_factor : ℚ :=
    if parasym = "High" ∧ env.stress_level < 6 then 1.15
    else if parasym = "Low" ∨ env.stress_level ≥ 6 then 0.75
    else 1.0
  ({ food with carbs := max 0 (food.carbs * (1 - 0.05 * saliva_factor)) }, saliva_factor)

/-- Stomach state (GutFlow.py lines 112-117). -/
structure Stomach where
  base_timer : ℕ
  timer : ℕ
  food : Option Food
  gastrin_factor : ℚ
deriving DecidableEq, Repr

/-- Stomach.__init__ (lines 113-117). -/
def Stomach.init : Stomach :=
  { base_timer := TIME_MAP_Stomach, timer := TIME_MAP_Stomach, food := none, gastrin_factor := 1 }

/-- Stomach.start_digestion (GutFlow.py lines 119-145): computes the digestion
duration from gastrin, stress, temperature, disease and hunger factors
(Python int() truncates toward zero; the operand is positive here, so it is
the floor), stores a copy of the food and the resolved gastrin factor. -/
def Stomach.start_digestion (s : Stomach) (food : Food) (hormones : Hormones)
    (cond : Conditions) (env : Environment) : Stomach :=
  let gastrin_factor : ℚ :=
    if hormones.gastrin = "High" then 1.3
    else if hormones.gastrin = "Low" then 0.75
    else 1.0
  let stress_factor : ℚ := if env.stress_level < 6 then 1.0 else 0.85
  let temp_factor : ℚ :=
    if env.temperature_c < 36 then 0.9
    else if env.temperature_c > 38 then 1.05
    else 1.0
  let disease_factor : ℚ :=
    (if cond.gastroparesis then (1.8 : ℚ) else 1) * (if cond.gerd then (1.05 : ℚ) else 1)
  let hunger_factor : ℚ := if hormones.ghrelin = "High" then 0.9 else 1.0
  let computed : ℤ :=
    max 2 ⌊(s.base_timer : ℚ) / (gastrin_factor * temp_factor * hunger_factor)
           * disease_factor / stress_factor⌋
  { s with timer := computed.toNat,
           food := some { name := food.name, carbs := food.carbs, proteins := food.proteins,
                          fats := food.fats, fiber := food.fiber },
           gastrin_factor := gastrin_factor }

/-- Result of one stomach digestion tick (return dict of lines 147-158). -/
inductive StomachTickResult where
  | running (remaining_ticks : ℕ)
  | finished (finished_food : Option Food)
deriving DecidableEq, Repr

/-- Stomach.digest_tick (GutFlow.py lines 147-158): decrement the timer while
positive; at zero apply the final protein hydrolysis to the stored food (when
present) and hand it back, clearing the stomach's copy. -/
def Stomach.digest_tick (s : Stomach) : Stomach × StomachTickResult :=
  if s.timer > 0 then
    ({ s with timer := s.timer - 1 }, .running (s.timer - 1))
  else
    match s.food with
    | some f =>
        let f2 : Food := { f with proteins := max 0 (f.proteins * 0.5 * s.gastrin_factor) }
        ({ s with food := none }, .finished (some f2))
    | none => ({ s with food := none }, .finished none)

/-- Duodenum state (GutFlow.py lines 161-163). -/
structure Duodenum where
  timer : ℕ
deriving DecidableEq, Repr

/-- Duodenum.__init__ (line 163). -/
def Duodenum.init : Duodenum := { timer := TIME_MAP_Duodenum }

/-- Duodenum.process_tick (GutFlow.py lines 165-169); the Bool is the running
flag of the returned dict.  The hormones argument is accepted and unused, as
in the source. -/
def Duodenum.process_tick (d : Duodenum) (_hormones : Hormones) : Duodenum × Bool :=
  if d.timer > 0 then ({ timer := d.timer - 1 }, true) else (d, false)

/-- SmallIntestine state (GutFlow.py lines 172-176). -/
structure SmallIntestine where
  base_timer : ℕ
  timer : ℕ
  food : Option Food
deriving DecidableEq, Repr

/-- SmallIntestine.__init__ (lines 173-176). -/
def SmallIntestine.init : SmallIntestine :=
  { base_timer := TIME_MAP_SmallIntestine, timer := TIME_MAP_SmallIntestine, food := none }

/-- SmallIntestine.start_absorption (GutFlow.py lines 178-181): stores a copy
of the incoming food; the timer is left as it is. -/
def SmallIntestine.start_absorption (si : SmallIntestine) (food : Food) (_hormones : Hormones) :
    SmallIntestine :=
  { si with food := some { name := food.name, carbs := food.carbs, proteins := food.proteins,
                           fats := food.fats, fiber := food.fiber } }

/-- Absorbed-nutrient mapping (the dict built at lines 189-193). -/
structure Absorbed where
  carbs : ℚ
  proteins : ℚ
  fats : ℚ
deriving DecidableEq, Repr

/-- Result of one small-intestine tick (return dicts of lines 183-195). -/
inductive AbsorbTickResult where
  | running (remaining_ticks : ℕ)
  | finished (absorbed : Absorbed) (energy_kcal : ℚ)
deriving DecidableEq, Repr

/-- SmallIntestine.absorb_tick (GutFlow.py lines 183-195): decrement the timer
while positive; at zero read the stored food (the source dereferences
self.food here with no None check, hence the Option result) and compute the
absorbed nutrient masses and the informational energy estimate. -/
def SmallIntestine.absorb_tick (si : SmallIntestine) (cond : Conditions)
    (_env : Environment) (_hormones : Hormones) :
    Option (SmallIntestine × AbsorbTickResult) :=
  if si.timer > 0 then
    some ({ si with timer := si.timer - 1 }, .running (si.timer - 1))
  else
    match si.food with
    | none => none
    | some f =>
        let malabs_factor : ℚ := if cond.malabsorption then 0.65 else 1.0
        let insulin_resistance : ℚ := if cond.diabetes || cond.obesity then 0.75 else 1.0
        let absorbed : Absorbed :=
          { carbs := max 0 (f.carbs * 0.95 * malabs_factor),
            proteins := max 0 (f.proteins * 0.9 * malabs_factor),
            fats := max 0 (f.fats * 0.85 * malabs_factor) }
        some (si, .finished absorbed
          ((absorbed.carbs * 4 + absorbed.proteins * 4 + absorbed.fats * 9) * insulin_resistance))

/-- LargeIntestine state (GutFlow.py lines 198-200). -/
structure LargeIntestine where
  timer : ℕ
deriving DecidableEq, Repr

/-- LargeIntestine.__init__ (line 200). -/
def LargeIntestine.init : LargeIntestine := { timer := TIME_MAP_LargeIntestine }

/-- LargeIntestine.tick (GutFlow.py lines 202-206). -/
def LargeIntestine.tick (li : LargeIntestine) : LargeIntestine × Bool :=
  if li.timer > 0 then ({ timer := li.timer - 1 }, true) else (li, false)

/-- Stage of the digestion pipeline, the values Body.stage takes in the
source (strings 'idle', 'mouth', ..., 'rectum'). -/
inductive Stage where
  | idle
  | mouth
  | esophagus
  | stomach
  | duodenum
  | small_intestine
  | large_intestine
  | rectum
deriving DecidableEq, Repr

/-- Metabolism snapshot (the result dict of Body.metabolize, lines 275-281).
The source rounds each reported entry to 2 decimals for display. -/
structure Metabolism where
  glycogen : ℚ
  fat_storage : ℚ
  protein_use : ℚ
  energy_added : ℚ
  total_energy : ℚ
deriving DecidableEq, Repr

/-- Round to 2 decimals, as Python round(x, 2).  Python rounds half to even;
this differs from Mathlib round only at exact half-cent midpoints, which the
simulation never reports. -/
def round2 (x : ℚ) : ℚ := (round (x * 100) : ℚ) / 100

/-- Body state (GutFlow.py lines 215-244). -/
structure Body where
  env : Environment
  cond : Conditions
  microbiome : Microbiome
  hormones : Hormones
  hunger_level : ℤ
  energy : ℚ
  stage : Stage
  prev_stage : Option Stage
  ticks : ℕ
  total_ticks : ℕ
  food : Option Food
  current_absorbed : Absorbed
  metabolism : Option Metabolism
  stomach : Stomach
  duodenum : Duodenum
  small_intestine : SmallIntestine
  large_intestine : LargeIntestine
deriving DecidableEq, Repr

/-- Body.__init__ (GutFlow.py lines 216-244).  The current_absorbed dict is
initially empty in the source and is only read through .get with default 0,
so it is embedded as the zero record. -/
def Body.init (env : Environment) (cond : Conditions) : Body :=
  { env := env, cond := cond, microbiome := Microbiome.init, hormones := Hormones.init,
    hunger_level := 5, energy := 0, stage := .idle, prev_stage := none,
    ticks := 0, total_ticks := 0, food := none,
    current_absorbed := { carbs := 0, proteins := 0, fats := 0 }, metabolism := none,
    stomach := Stomach.init, duodenum := Duodenum.init,
    small_intestine := SmallIntestine.init, large_intestine := LargeIntestine.init }

/-- Body.set_hunger_from_flags (GutFlow.py lines 246-257). -/
def Body.set_hunger_from_flags (b : Body) : Body :=
  if b.cond.obesity then
    { b with hormones := { b.hormones with leptin := "High", ghrelin := "Low" },
             hunger_level := max 1 (b.hunger_level - 2) }
  else
    { b with hormones :=
        { b.hormones with ghrelin := if b.hunger_level ≥ 7 then "High" else "Low" } }

/-- Body.eat (GutFlow.py lines 259-266): store a fresh copy of the food,
enter the mouth stage, drop ghrelin, reduce hunger by 3 (floored at 0) and
raise anticipatory insulin slightly. -/
def Body.eat (b : Body) (food : Food) : Body :=
  { b with food := some { name := food.name, carbs := food.carbs, proteins := food.proteins,
                          fats := food.fats, fiber := food.fiber },
           stage := .mouth,
           hormones := { b.hormones with ghrelin := "Low", insulin := "Slight" },
           hunger_level := max 0 (b.hunger_level - 3) }

/-- Body.metabolize (GutFlow.py lines 268-282): partition absorbed nutrients
into glycogen, stored fat and used protein, add the resulting energy to the
body's cumulative energy, and report a snapshot (rounded to 2 decimals in the
source's result dict). -/
def Body.metabolize (b : Body) (absorbed : Absorbed) : Body × Metabolism :=
  let glycogen : ℚ := min 100 (absorbed.carbs * 0.6)
  let fat_storage : ℚ := absorbed.fats * 0.7
  let protein_use : ℚ := absorbed.proteins * 0.8
  let energy_added : ℚ := glycogen * 4 + protein_use * 4 + fat_storage * 9
  let b2 : Body := { b with energy := b.energy + energy_added }
  (b2, { glycogen := round2 glycogen, fat_storage := round2 fat_storage,
         protein_use := round2 protein_use, energy_added := round2 energy_added,
         total_energy := round2 b2.energy })

/-- Body._update_hormones_on_stage_entry (GutFlow.py lines 284-316). -/
def Body.update_hormones_on_stage_entry (b : Body) : Body :=
  match b.stage with
  | .mouth =>
      let h := { b.hormones with
                 parasympathetic_stim := if b.env.stress_level < 6 then "High" else "Normal" }
      let h := if h.insulin ≠ "High" then { h with insulin := "Slight" } else h
      { b with hormones := h }
  | .esophagus => { b with hormones := { b.hormones with parasympathetic_stim := "Normal" } }
  | .stomach =>
      { b with hormones := { b.hormones with
          gastrin := "High", ghrelin := "Low",
          parasympathetic_stim := if b.env.stress_level < 6 then "High" else "Low" } }
  | .duodenum => { b with hormones := { b.hormones with gastrin := "Normal" } }
  | .small_intestine =>
      { b with hormones := { b.hormones with
          insulin := if ¬ b.cond.diabetes then "High" else "Impaired",
          parasympathetic_stim := if b.env.stress_level ≥ 6 then "Normal" else "High" } }
  | .large_intestine =>
      { b with hormones := { b.hormones with insulin := "Normal", gastrin := "Low" } }
  | .rectum => { b with hormones := { b.hormones with parasympathetic_stim := "Normal" } }
  | .idle => b

/-- First phase of Body.tick (GutFlow.py lines 318-328): stress-driven
parasympathetic baseline, then on a stage change reset the per-stage tick
counter, run the stage-entry hormone policy and record the stage as previous. -/
def Body.preTick (b : Body) : Body :=
  let b1 : Body :=
    { b with hormones := { b.hormones with
        parasympathetic_stim := if b.env.stress_level ≥ 6 then "Low" else "Normal" } }
  if b1.prev_stage ≠ some b1.stage then
    let b2 : Body := { b1 with ticks := 0 }
    let b3 : Body := b2.update_hormones_on_stage_entry
    { b3 with prev_stage := some b3.stage }
  else b1

/-- Placeholder chyme food inserted when the stomach finishes with no stored
food (GutFlow.py line 354). -/
def chymePlaceholder : Food :=
  { name := "chyme", carbs := 0, proteins := 0, fats := 0, fiber := 0 }

/-- Stage dispatch of Body.tick (GutFlow.py lines 330-396).  A none result
marks the points where the source would raise an AttributeError by
dereferencing an absent food (mouth with no food, stomach start with no body
food, duodenum completion with no body food, small-intestine completion with
no stored food). -/
def Body.dispatch (b : Body) : Option Body :=
  match b.stage with
  | .idle => some b.set_hunger_from_flags
  | .mouth =>
      match b.food with
      | none => none
      | some f =>
          some { b with food := some (Mouth.process f b.hormones b.env).1, stage := .esophagus }
  | .esophagus => some { b with stage := .stomach }
  | .stomach =>
      match b.stomach.food with
      | none =>
          match b.food with
          | none => none
          | some f =>
              some { b with stomach := b.stomach.start_digestion f b.hormones b.cond b.env }
      | some _ =>
          let p := b.stomach.digest_tick
          match p.2 with
          | .running _ => some { b with stomach := p.1 }
          | .finished fin =>
              some { b with stomach := p.1, stage := .duodenum,
                            food := some (fin.getD chymePlaceholder) }
  | .duodenum =>
      let p := b.duodenum.process_tick b.hormones
      if p.2 then some { b with duodenum := p.1 }
      else
        match b.food with
        | none => none
        | some f =>
            some { b with duodenum := p.1, stage := .small_intestine,
                          small_intestine := b.small_intestine.start_absorption f b.hormones }
  | .small_intestine =>
      match b.small_intestine.absorb_tick b.cond b.env b.hormones with
      | none => none
      | some (si, .running _) => some { b with small_intestine := si }
      | some (si, .finished absorbed _) =>
          let b1 : Body := { b with small_intestine := si, current_absorbed := absorbed }
          let p := b1.metabolize absorbed
          some { p.1 with metabolism := some p.2, stage := .large_intestine }
  | .large_intestine =>
      let p := b.large_intestine.tick
      if p.2 then some { b with large_intestine := p.1 }
      else some { b with large_intestine := p.1, stage := .rectum }
  | .rectum =>
      some { b with stage := .idle,
                    stomach := Stomach.init, duodenum := Duodenum.init,
                    small_intestine := SmallIntestine.init,
                    large_intestine := LargeIntestine.init,
                    food := none, hunger_level := min 10 (b.hunger_level + 4) }

/-- Last phase of Body.tick (GutFlow.py lines 398-404): feed the microbiome
with the fiber of the current (post-dispatch) food, advance it one tick, and
increment both tick counters. -/
def Body.postTick (b : Body) : Body :=
  let fib : ℚ := match b.food with | some f => f.fiber | none => 0
  { b with microbiome := Microbiome.tick { b.microbiome with fiber_intake := fib },
           ticks := b.ticks + 1, total_ticks := b.total_ticks + 1 }

/-- Body.tick (GutFlow.py lines 318-405), composed of its three phases; none
marks an uncaught exception. -/
def Body.tick (b : Body) : Option Body :=
  (b.preTick.dispatch).map Body.postTick

/-- External command tokens that mutate simulation state (main_loop,
GutFlow.py lines 567-593; p and q do not touch the Body). -/
inductive Cmd where
  | skip
  | stressUp
  | stressDown
  | tempUp
  | tempDown
  | toggleObesity
  | toggleMalabsorption
  | toggleAntibiotic
deriving DecidableEq, Repr

/-- Effect of one command token on the Body (main_loop, lines 567-593):
n zeroes all four organ timers, plus and minus clamp stress to 0..10, t and g move the
temperature by half a degree, o/m toggle condition flags, a toggles the
antibiotic flag. -/
def Body.applyCmd (b : Body) : Cmd → Body
  | .skip =>
      { b with stomach := { b.stomach with timer := 0 },
               duodenum := { b.duodenum with timer := 0 },
               small_intestine := { b.small_intestine with timer := 0 },
               large_intestine := { b.large_intestine with timer := 0 } }
  | .stressUp => { b with env := { b.env with stress_level := min 10 (b.env.stress_level + 1) } }
  | .stressDown => { b with env := { b.env with stress_level := max 0 (b.env.stress_level - 1) } }
  | .tempUp => { b with env := { b.env with temperature_c := b.env.temperature_c + 0.5 } }
  | .tempDown => { b with env := { b.env with temperature_c := b.env.temperature_c - 0.5 } }
  | .toggleObesity => { b with cond := { b.cond with obesity := !b.cond.obesity } }
  | .toggleMalabsorption =>
      { b with cond := { b.cond with malabsorption := !b.cond.malabsorption } }
  | .toggleAntibiotic =>
      { b with microbiome := { b.microbiome with antibiotic := !b.microbiome.antibiotic } }

/-- Iterate Body.tick n times; none as soon as a tick raises. -/
def Body.run (b : Body) : ℕ → Option Body
  | 0 => some b
  | n + 1 => (b.tick).bind (fun b2 => b2.run n)

/-- Stage values observed at the start of each of n successive Body.tick
calls (the trace is cut short if a tick raises). -/
def Body.stageTrace (b : Body) : ℕ → List Stage
  | 0 => []
  | n + 1 =>
      b.stage :: (match b.tick with
                  | some b2 => b2.stageTrace n
                  | none => [])

/-! ### Shared concrete scenario

The default simulation setup of main_loop (GutFlow.py lines 516-526) with the
Pasta meal (line 522). -/

/-- Conditions with every flag off (the default Conditions()). -/
def condNone : Conditions :=
  { gastroparesis := false, gerd := false, malabsorption := false,
    diabetes := false, obesity := false }

/-- Default environment of main_loop (line 516). -/
def envDefault : Environment := { temperature_c := 37, stress_level := 2 }

/-- The Pasta meal of the menu (line 522). -/
def pasta : Food := { name := "Pasta", carbs := 70, proteins := 20, fats := 10, fiber := 3 }

/-- Body state right after choosing the Pasta meal on a fresh body. -/
def mealBody : Body := (Body.init envDefault condNone).eat pasta

/-! ### Spec-side factor definitions for the stomach duration formula.

These follow the wording of the specification's formula for
Stomach.start_digestion, to be compared with the source embedding. -/

/-- Gastrin factor as the spec words it: 1.3 if High, 0.75 if Low, else 1.0. -/
def gastrinFactorSpec (h : Hormones) : ℚ :=
  if h.gastrin = "High" then 1.3 else if h.gastrin = "Low" then 0.75 else 1.0

/-- Stress factor as the spec words it: 0.85 if stress_level at least 6 else 1.0. -/
def stressFactorSpec (env : Environment) : ℚ :=
  if env.stress_level ≥ 6 then 0.85 else 1.0

/-- Temperature factor as the spec words it: 0.9 below 36, 1.05 above 38, else 1.0. -/
def tempFactorSpec (env : Environment) : ℚ :=
  if env.temperature_c < 36 then 0.9 else if env.temperature_c > 38 then 1.05 else 1.0

/-- Disease factor as the spec words it: 1.8 per gastroparesis times 1.05 per gerd. -/
def diseaseFactorSpec (cond : Conditions) : ℚ :=
  (if cond.gastroparesis then (1.8 : ℚ) else 1) * (if cond.gerd then (1.05 : ℚ) else 1)

/-- Hunger factor as the spec words it: 0.9 if ghrelin is High else 1.0. -/
def hungerFactorSpec (h : Hormones) : ℚ :=
  if h.ghrelin = "High" then 0.9 else 1.0

/-- C2: for every hormone map, Conditions and Environment, Stomach.start_digestion
sets the stomach timer to max(2, floor(6 divided by (gastrin times temperature
times hunger factor), times disease factor, divided by stress factor)); and in
the default situation (gastrin Normal, ghrelin Normal, stress below 6,
temperature 37, no gastroparesis or gerd) the computed duration is 6. -/
theorem stomach_duration_formula (s : Stomach) (h : Hormones) (cond : Conditions)
    (env : Environment) (f : Food) (hb : s.base_timer = 6) :
    ((s.start_digestion f h cond env).timer : ℤ) =
      max 2 ⌊(6 : ℚ) / (gastrinFactorSpec h * tempFactorSpec env * hungerFactorSpec h)
              * diseaseFactorSpec cond / stressFactorSpec env⌋ ∧
    (h.gastrin = "Normal" → h.ghrelin = "Normal" → env.stress_level < 6 →
      env.temperature_c = 37 → cond.gastroparesis = false → cond.gerd = false →
      (s.start_digestion f h cond env).timer = 6) := by
  constructor
  · simp only [Stomach.start_digestion, hb, gastrinFactorSpec, tempFactorSpec,
               hungerFactorSpec, diseaseFactorSpec, stressFactorSpec, Nat.cast_ofNat]
    rcases lt_or_le env.stress_level 6 with hs | hs
    · rw [if_pos hs, if_neg (not_le.mpr hs)]
      exact Int.toNat_of_nonneg (le_trans (by norm_num) (le_max_left 2 _))
    · rw [if_neg (not_lt.mpr hs), if_pos hs]
      exact Int.toNat_of_nonneg (le_trans (by norm_num) (le_max_left 2 _))
  · intro h1 h2 h3 h4 h5 h6
    simp only [Stomach.start_digestion, hb, h1, h2, h4, h5, h6, Nat.cast_ofNat]
    rw [if_pos h3]
    simp only [show (("Normal" : String) = "High") = False from by simp,
               show (("Normal" : String) = "Low") = False from by simp,
               if_false]
    norm_num
    rfl

/-- Witness for C2: the default setup satisfies the hypotheses and the computed
duration is 6 there. -/
theorem stomach_duration_formula_witness :
    Stomach.init.base_timer = 6 ∧ Hormones.init.gastrin = "Normal" ∧
    Hormones.init.ghrelin = "Normal" ∧ envDefault.stress_level < 6 ∧
    envDefault.temperature_c = 37 ∧ condNone.gastroparesis = false ∧
    condNone.gerd = false ∧
    (Stomach.init.start_digestion pasta Hormones.init condNone envDefault).timer = 6 :=
  ⟨rfl, rfl, rfl, by decide, rfl, rfl, rfl,
   (stomach_duration_formula Stomach.init Hormones.init condNone envDefault pasta
      rfl).2 rfl rfl (by decide) rfl rfl rfl⟩

/-- Malabsorption factor as the spec words it. -/
def malabsFactorSpec (cond : Conditions) : ℚ := if cond.malabsorption then 0.65 else 1.0

/-- Insulin-resistance factor as the spec words it. -/
def insulinResistanceSpec (cond : Conditions) : ℚ :=
  if cond.diabetes ∨ cond.obesity then 0.75 else 1.0

/-- C5: when SmallIntestine.absorb_tick completes (timer at zero) with stored
food of nonnegative composition, the absorbed masses are carbs times 0.95,
proteins times 0.9 and fats times 0.85, each scaled by the malabsorption
factor, and the reported energy is the 4-4-9 kcal combination scaled by the
insulin-resistance factor. -/
theorem small_intestine_absorption (si : SmallIntestine) (cond : Conditions)
    (env : Environment) (h : Hormones) (f : Food)
    (ht : si.timer = 0) (hf : si.food = some f)
    (hc : 0 ≤ f.carbs) (hp : 0 ≤ f.proteins) (hfa : 0 ≤ f.fats) :
    si.absorb_tick cond env h =
      some (si, .finished
        { carbs := f.carbs * 0.95 * malabsFactorSpec cond,
          proteins := f.proteins * 0.9 * malabsFactorSpec cond,
          fats := f.fats * 0.85 * malabsFactorSpec cond }
        ((f.carbs * 0.95 * malabsFactorSpec cond * 4
            + f.proteins * 0.9 * malabsFactorSpec cond * 4
            + f.fats * 0.85 * malabsFactorSpec cond * 9) * insulinResistanceSpec cond)) := by
  have hm : (0 : ℚ) ≤ malabsFactorSpec cond := by
    rw [malabsFactorSpec]; split <;> norm_num
  rw [SmallIntestine.absorb_tick]
  rw [if_neg (by omega : ¬ si.timer > 0), hf]
  have h1 : max 0 (f.carbs * 0.95 * malabsFactorSpec cond)
      = f.carbs * 0.95 * malabsFactorSpec cond :=
    max_eq_right (by positivity)
  have h2 : max 0 (f.proteins * 0.9 * malabsFactorSpec cond)
      = f.proteins * 0.9 * malabsFactorSpec cond :=
    max_eq_right (by positivity)
  have h3 : max 0 (f.fats * 0.85 * malabsFactorSpec cond)
      = f.fats * 0.85 * malabsFactorSpec cond :=
    max_eq_right (by positivity)
  have hir : (if cond.diabetes || cond.obesity then (0.75 : ℚ) else 1.0)
      = insulinResistanceSpec cond := by
    rw [insulinResistanceSpec]
    rcases hd : cond.diabetes <;> rcases ho : cond.obesity <;> simp
  simp only [malabsFactorSpec, insulinResistanceSpec] at h1 h2 h3 hir ⊢
  rw [h1, h2, h3, hir]

/-- Witness for C5, which is also the spec's worked example: food with carbs 70,
proteins 20, fats 10 and no conditions yields absorbed carbs 66.5, proteins 18,
fats 8.5 and energy 414.5 kcal. -/
theorem small_intestine_absorption_witness :
    (({ base_timer := 18, timer := 0, food := some pasta } : SmallIntestine).timer = 0) ∧
    0 ≤ pasta.carbs ∧ 0 ≤ pasta.proteins ∧ 0 ≤ pasta.fats ∧
    SmallIntestine.absorb_tick { base_timer := 18, timer := 0, food := some pasta }
        condNone envDefault Hormones.init =
      some ({ base_timer := 18, timer := 0, food := some pasta },
        .finished { carbs := 66.5, proteins := 18, fats := 8.5 } 414.5) := by
  refine ⟨rfl, by norm_num [pasta], by norm_num [pasta], by norm_num [pasta], ?_⟩
  have h := small_intestine_absorption { base_timer := 18, timer := 0, food := some pasta }
    condNone envDefault Hormones.init pasta rfl rfl
    (by norm_num [pasta]) (by norm_num [pasta]) (by norm_num [pasta])
  rw [h]
  with_unfolding_all rfl

/-- Counterexample to C6 as stated: at the spec's own absorbed set
(carbs 66.5, proteins 18, fats 8.5) the code computes
energy_added = 39.9 times 4 + 14.4 times 4 + 5.95 times 9 = 270.75, which is
not the 270.15 the claim asserts. -/
theorem metabolize_claimed_value_false :
    ((Body.init envDefault condNone).metabolize
        { carbs := 66.5, proteins := 18, fats := 8.5 }).2.energy_added = 270.75 ∧
    ¬ ((Body.init envDefault condNone).metabolize
        { carbs := 66.5, proteins := 18, fats := 8.5 }).2.energy_added = 270.15 := by
  constructor
  · with_unfolding_all rfl
  · intro hcontra
    have h1 : ((Body.init envDefault condNone).metabolize
        { carbs := 66.5, proteins := 18, fats := 8.5 }).2.energy_added = 270.75 := by
      with_unfolding_all rfl
    rw [h1] at hcontra
    norm_num at hcontra

/-- C6 amended: Body.metabolize computes glycogen = min(100, carbs times 0.6),
fat_storage = fats times 0.7, protein_use = proteins times 0.8,
energy_added = glycogen times 4 + protein_use times 4 + fat_storage times 9
(each reported rounded to 2 decimals), and increases Body.energy by exactly
energy_added; at absorbed carbs 66.5, proteins 18, fats 8.5 this gives
glycogen 39.9, fat_storage 5.95, protein_use 14.4 and energy_added 270.75
(not 270.15 as the claim stated). -/
theorem metabolize_spec (b : Body) (a : Absorbed) :
    (b.metabolize a).1.energy =
      b.energy + (min 100 (a.carbs * 0.6) * 4 + a.proteins * 0.8 * 4 + a.fats * 0.7 * 9) ∧
    (b.metabolize a).2.glycogen = round2 (min 100 (a.carbs * 0.6)) ∧
    (b.metabolize a).2.fat_storage = round2 (a.fats * 0.7) ∧
    (b.metabolize a).2.protein_use = round2 (a.proteins * 0.8) ∧
    (b.metabolize a).2.energy_added =
      round2 (min 100 (a.carbs * 0.6) * 4 + a.proteins * 0.8 * 4 + a.fats * 0.7 * 9) ∧
    (b.metabolize { carbs := 66.5, proteins := 18, fats := 8.5 }).2.glycogen = 39.9 ∧
    (b.metabolize { carbs := 66.5, proteins := 18, fats := 8.5 }).2.fat_storage = 5.95 ∧
    (b.metabolize { carbs := 66.5, proteins := 18, fats := 8.5 }).2.protein_use = 14.4 ∧
    (b.metabolize { carbs := 66.5, proteins := 18, fats := 8.5 }).2.energy_added = 270.75 ∧
    (b.metabolize { carbs := 66.5, proteins := 18, fats := 8.5 }).1.energy =
      b.energy + 270.75 := by
  refine ⟨rfl, rfl, rfl, rfl, rfl, ?_, ?_, ?_, ?_, ?_⟩
  · with_unfolding_all rfl
  · with_unfolding_all rfl
  · with_unfolding_all rfl
  · with_unfolding_all rfl
  · show b.energy + _ = b.energy + _
    congr 1
    with_unfolding_all rfl

/-- C10: Body.eat stores a field-wise fresh copy of the given food (the source
constructs a new Food object, so later mutation of the caller's object cannot
change the stored one; in this value semantics the copy is the record of the
argument's fields), enters the mouth stage, sets ghrelin Low and insulin
Slight, lowers hunger by 3 floored at 0, and leaves energy, microbiome and
both tick counters unchanged. -/
theorem eat_spec (b : Body) (f : Food) :
    (b.eat f).food = some { name := f.name, carbs := f.carbs, proteins := f.proteins,
                            fats := f.fats, fiber := f.fiber } ∧
    (b.eat f).stage = Stage.mouth ∧
    (b.eat f).hormones.ghrelin = "Low" ∧
    (b.eat f).hormones.insulin = "Slight" ∧
    (b.eat f).hunger_level = max 0 (b.hunger_level - 3) ∧
    (b.eat f).energy = b.energy ∧
    (b.eat f).microbiome = b.microbiome ∧
    (b.eat f).ticks = b.ticks ∧
    (b.eat f).total_ticks = b.total_ticks :=
  ⟨rfl, rfl, rfl, rfl, rfl, rfl, rfl, rfl, rfl⟩

/-! ### Microbiome invariants -/

/-- Microbiome states reachable from the initial state by any sequence of
ticks, where before each tick the outside world may set fiber_intake (Body
does so every tick) and the antibiotic flag (the a command) arbitrarily. -/
inductive MReachable : Microbiome → Prop where
  | init : MReachable Microbiome.init
  | step (m : Microbiome) (fi : ℚ) (ab : Bool) :
      MReachable m →
      MReachable (Microbiome.tick { m with fiber_intake := fi, antibiotic := ab })

/-- Re-normalization to a total of 100 preserves nonnegativity and gives an
exact sum of 100 whenever the incoming total is positive. -/
lemma renorm_props (g b : ℚ) (hg : 0 ≤ g) (hb : 0 ≤ b) (ht : 0 < g + b) :
    0 ≤ g / (g + b) * 100 ∧ 0 ≤ b / (g + b) * 100 ∧
    g / (g + b) * 100 + b / (g + b) * 100 = 100 := by
  refine ⟨by positivity, by positivity, ?_⟩
  have hne : g + b ≠ 0 := ne_of_gt ht
  field_simp
  ring

/-- One Microbiome.tick preserves nonnegativity and the exact sum 100. -/
lemma microbiome_tick_preserves (m : Microbiome)
    (hg : 0 ≤ m.good_bacteria) (hb : 0 ≤ m.bad_bacteria)
    (hs : m.good_bacteria + m.bad_bacteria = 100) :
    0 ≤ (m.tick).good_bacteria ∧ 0 ≤ (m.tick).bad_bacteria ∧
    (m.tick).good_bacteria + (m.tick).bad_bacteria = 100 := by
  have hgle : m.good_bacteria ≤ 100 := by linarith
  rw [Microbiome.tick]
  set g := m.good_bacteria with hgdef
  set b := m.bad_bacteria with hbdef
  set g1 : ℚ := if m.fiber_intake > 0 then min 100 (g + 1.2) else g with hg1
  set b1 : ℚ := if m.fiber_intake > 0 then max 0 (b - 0.6) else b with hb1
  set g2 : ℚ := if m.antibiotic then max 0 (g1 - 5) else g1 with hg2
  set b2 : ℚ := if m.antibiotic then max 0 (b1 - 2) else b1 with hb2
  have hg1pos : 0 ≤ g1 := by
    rw [hg1]; split
    · exact le_min (by norm_num) (by linarith)
    · exact hg
  have hb1pos : 0 ≤ b1 := by
    rw [hb1]; split
    · exact le_max_left 0 _
    · exact hb
  have hsum1 : g + b - 0.6 ≤ g1 + b1 := by
    rw [hg1, hb1]; split
    · have h1 : g ≤ min 100 (g + 1.2) := le_min hgle (by linarith)
      have h2 : b - 0.6 ≤ max 0 (b - 0.6) := le_max_right 0 _
      linarith
    · linarith
  have hg2pos : 0 ≤ g2 := by
    rw [hg2]; split
    · exact le_max_left 0 _
    · exact hg1pos
  have hb2pos : 0 ≤ b2 := by
    rw [hb2]; split
    · exact le_max_left 0 _
    · exact hb1pos
  have htot : 0 < g2 + b2 := by
    have h1 : g1 - 5 ≤ g2 := by
      rw [hg2]; split
      · exact le_max_right 0 _
      · linarith
    have h2 : b1 - 2 ≤ b2 := by
      rw [hb2]; split
      · exact le_max_right 0 _
      · linarith
    linarith
  rw [if_pos htot]
  exact renorm_props g2 b2 hg2pos hb2pos htot

/-- Invariant carried along MReachable: both populations are nonnegative and
sum to 100. -/
lemma MReachable_inv (m : Microbiome) (h : MReachable m) :
    0 ≤ m.good_bacteria ∧ 0 ≤ m.bad_bacteria ∧
    m.good_bacteria + m.bad_bacteria = 100 := by
  induction h with
  | init => refine ⟨by norm_num [Microbiome.init], by norm_num [Microbiome.init], ?_⟩
            norm_num [Microbiome.init]
  | step m fi ab _ ih =>
      exact microbiome_tick_preserves { m with fiber_intake := fi, antibiotic := ab }
        ih.1 ih.2.1 ih.2.2

/-- C3: for every Microbiome state reachable from the initial state
(good 70, bad 30) by any sequence of ticks with arbitrary fiber and
antibiotic settings, good_bacteria + bad_bacteria equals 100 exactly (in the
float code, up to floating tolerance). -/
theorem microbiome_sum_invariant (m : Microbiome) (h : MReachable m) :
    m.good_bacteria + m.bad_bacteria = 100 :=
  (MReachable_inv m h).2.2

/-- Witness for C3: the initial microbiome is reachable and its populations
sum to 100. -/
theorem microbiome_sum_invariant_witness :
    Microbiome.init.good_bacteria + Microbiome.init.bad_bacteria = 100 :=
  microbiome_sum_invariant Microbiome.init MReachable.init

/-- C9: with positive fiber intake and no antibiotic, one Microbiome.tick
does not decrease good bacteria and does not increase bad bacteria, for every
state with nonnegative populations summing to 100. -/
theorem microbiome_fiber_improves (m : Microbiome)
    (hg : 0 ≤ m.good_bacteria) (hb : 0 ≤ m.bad_bacteria)
    (hs : m.good_bacteria + m.bad_bacteria = 100)
    (hf : m.fiber_intake > 0) (ha : m.antibiotic = false) :
    m.good_bacteria ≤ (m.tick).good_bacteria ∧
    (m.tick).bad_bacteria ≤ m.bad_bacteria := by
  have hgle : m.good_bacteria ≤ 100 := by linarith
  rw [Microbiome.tick]
  simp only [ha, if_pos hf, Bool.false_eq_true, if_false]
  set g := m.good_bacteria with hgdef
  set b := m.bad_bacteria with hbdef
  set g1 : ℚ := min 100 (g + 1.2) with hg1
  set b1 : ℚ := max 0 (b - 0.6) with hb1
  have hgg1 : g ≤ g1 := le_min hgle (by linarith)
  have hg1pos : 0 ≤ g1 := le_trans hg hgg1
  have hb1b : b1 ≤ b := max_le hb (by linarith)
  have hb1pos : 0 ≤ b1 := le_max_left 0 _
  have htot : 0 < g1 + b1 := by
    have : b - 0.6 ≤ b1 := le_max_right 0 _
    linarith
  rw [if_pos htot]
  constructor
  · show g ≤ g1 / (g1 + b1) * 100
    rw [div_mul_eq_mul_div, le_div_iff₀ htot]
    nlinarith [mul_nonneg (sub_nonneg.mpr hgg1) hb,
               mul_nonneg hg (sub_nonneg.mpr hb1b)]
  · show b1 / (g1 + b1) * 100 ≤ b
    rw [div_mul_eq_mul_div, div_le_iff₀ htot]
    nlinarith [mul_nonneg (sub_nonneg.mpr hgg1) hb,
               mul_nonneg hg (sub_nonneg.mpr hb1b)]

/-- Witness for C9 at the initial populations with fiber 3 and no
antibiotic. -/
theorem microbiome_fiber_improves_witness :
    (0 : ℚ) ≤ 70 ∧ (0 : ℚ) ≤ 30 ∧ (70 : ℚ) + 30 = 100 ∧ (3 : ℚ) > 0 ∧
    ((70 : ℚ) ≤ (Microbiome.tick
        { good_bacteria := 70, bad_bacteria := 30, fiber_intake := 3,
          antibiotic := false }).good_bacteria ∧
      (Microbiome.tick
        { good_bacteria := 70, bad_bacteria := 30, fiber_intake := 3,
          antibiotic := false }).bad_bacteria ≤ 30) :=
  ⟨by norm_num, by norm_num, by norm_num, by norm_num,
   microbiome_fiber_improves
     { good_bacteria := 70, bad_bacteria := 30, fiber_intake := 3, antibiotic := false }
     (by norm_num) (by norm_num) (by norm_num) (by norm_num) rfl⟩

/-! ### Structural lemmas about the three phases of Body.tick -/

/-- The bookkeeping phase preTick only touches hormones, the per-stage tick
counter and prev_stage; in particular it always records the current stage as
previous. -/
lemma preTick_spec (b : Body) :
    b.preTick.stage = b.stage ∧ b.preTick.prev_stage = some b.stage ∧
    b.preTick.env = b.env ∧ b.preTick.cond = b.cond ∧
    b.preTick.energy = b.energy ∧ b.preTick.food = b.food ∧
    b.preTick.stomach = b.stomach ∧ b.preTick.duodenum = b.duodenum ∧
    b.preTick.small_intestine = b.small_intestine ∧
    b.preTick.large_intestine = b.large_intestine ∧
    b.preTick.microbiome = b.microbiome ∧
    b.preTick.hunger_level = b.hunger_level ∧
    b.preTick.total_ticks = b.total_ticks := by
  obtain ⟨env, cond, mic, hor, hun, en, st, prev, tks, ttks, fd, ca, met, sto, duo, si, li⟩ := b
  dsimp only [Body.preTick]
  by_cases hp : prev = some st
  · rw [if_neg (not_not_intro hp)]
    simp [hp]
  · rw [if_pos hp]
    cases st <;> dsimp only [Body.update_hormones_on_stage_entry] <;> simp

/-- The postlude phase postTick only touches the microbiome and the two tick
counters. -/
lemma postTick_spec (b : Body) :
    b.postTick.stage = b.stage ∧ b.postTick.prev_stage = b.prev_stage ∧
    b.postTick.env = b.env ∧ b.postTick.cond = b.cond ∧
    b.postTick.energy = b.energy ∧ b.postTick.food = b.food ∧
    b.postTick.stomach = b.stomach ∧ b.postTick.duodenum = b.duodenum ∧
    b.postTick.small_intestine = b.small_intestine ∧
    b.postTick.large_intestine = b.large_intestine ∧
    b.postTick.hormones = b.hormones ∧
    b.postTick.hunger_level = b.hunger_level :=
  ⟨rfl, rfl, rfl, rfl, rfl, rfl, rfl, rfl, rfl, rfl, rfl, rfl⟩

/-- A finished absorb_tick only ever reports nonnegative absorbed masses,
because of the max-0 clamps in the source (lines 189-193). -/
lemma absorb_tick_finished_nonneg (si si2 : SmallIntestine) (cond : Conditions)
    (env : Environment) (h : Hormones) (a : Absorbed) (e : ℚ)
    (hres : si.absorb_tick cond env h = some (si2, .finished a e)) :
    0 ≤ a.carbs ∧ 0 ≤ a.proteins ∧ 0 ≤ a.fats := by
  rw [SmallIntestine.absorb_tick] at hres
  split at hres
  · simp at hres
  · cases hsf : si.food with
    | none => rw [hsf] at hres; simp at hres
    | some f =>
        rw [hsf] at hres
        simp only [Option.some.injEq, Prod.mk.injEq, AbsorbTickResult.finished.injEq] at hres
        obtain ⟨-, ha, -⟩ := hres
        refine ⟨?_, ?_, ?_⟩ <;> rw [← ha] <;> exact le_max_left 0 _

/-- The dispatch phase never decreases the body's energy: the only branch that
changes energy is small-intestine completion, where metabolize adds a
nonnegative amount computed from max-0-clamped absorbed masses. -/
lemma dispatch_energy (b b2 : Body) (h : b.dispatch = some b2) :
    b.energy ≤ b2.energy := by
  cases hst : b.stage <;> simp only [Body.dispatch, hst] at h
  case idle =>
    obtain rfl := Option.some.inj h
    rw [Body.set_hunger_from_flags]
    split <;> exact le_rfl
  case mouth =>
    cases hf : b.food with
    | none => rw [hf] at h; simp at h
    | some f => rw [hf] at h; obtain rfl := Option.some.inj h; exact le_rfl
  case esophagus =>
    obtain rfl := Option.some.inj h
    exact le_rfl
  case stomach =>
    cases hsf : b.stomach.food with
    | none =>
        rw [hsf] at h
        cases hf : b.food with
        | none => rw [hf] at h; simp at h
        | some f => rw [hf] at h; obtain rfl := Option.some.inj h; exact le_rfl
    | some f0 =>
        rw [hsf] at h
        cases hd : (b.stomach.digest_tick).2 with
        | running r => rw [hd] at h; obtain rfl := Option.some.inj h; exact le_rfl
        | finished fin => rw [hd] at h; obtain rfl := Option.some.inj h; exact le_rfl
  case duodenum =>
    cases hp : (b.duodenum.process_tick b.hormones).2 with
    | true => rw [hp] at h; simp only [if_true] at h; obtain rfl := Option.some.inj h; exact le_rfl
    | false =>
        rw [hp] at h
        simp only [Bool.false_eq_true, if_false] at h
        cases hf : b.food with
        | none => rw [hf] at h; simp at h
        | some f => rw [hf] at h; obtain rfl := Option.some.inj h; exact le_rfl
  case small_intestine =>
    cases habs : b.small_intestine.absorb_tick b.cond b.env b.hormones with
    | none => rw [habs] at h; simp at h
    | some p =>
        obtain ⟨si, r⟩ := p
        cases r with
        | running rem => rw [habs] at h; obtain rfl := Option.some.inj h; exact le_rfl
        | finished a e =>
            rw [habs] at h
            obtain rfl := Option.some.inj h
            have hnn := absorb_tick_finished_nonneg b.small_intestine si b.cond b.env
              b.hormones a e habs
            show b.energy ≤ b.energy + _
            have h1 : (0 : ℚ) ≤ min 100 (a.carbs * 0.6) :=
              le_min (by norm_num) (by nlinarith [hnn.1])
            nlinarith [hnn.2.1, hnn.2.2, h1]
  case large_intestine =>
    cases hp : (b.large_intestine.tick).2 with
    | true => rw [hp] at h; simp only [if_true] at h; obtain rfl := Option.some.inj h; exact le_rfl
    | false =>
        rw [hp] at h
        simp only [Bool.false_eq_true, if_false] at h
        obtain rfl := Option.some.inj h
        exact le_rfl
  case rectum =>
    obtain rfl := Option.some.inj h
    exact le_rfl

/-- One successful Body.tick never decreases energy. -/
lemma tick_energy (b b2 : Body) (h : b.tick = some b2) : b.energy ≤ b2.energy := by
  rw [Body.tick] at h
  cases hd : b.preTick.dispatch with
  | none => rw [hd] at h; simp at h
  | some c =>
      rw [hd] at h
      have hb2 : b2 = c.postTick := by simpa using h.symm
      subst hb2
      calc b.energy = b.preTick.energy := ((preTick_spec b).2.2.2.2.1).symm
        _ ≤ c.energy := dispatch_energy b.preTick c hd
        _ = c.postTick.energy := ((postTick_spec c).2.2.2.2.1).symm

/-! ### Operations of the simulation and reachability -/

/-- One operation the simulation can perform on a Body: a (successful) tick,
eating a meal, or one of the external command tokens. -/
inductive Step : Body → Body → Prop where
  | tick (b b2 : Body) : b.tick = some b2 → Step b b2
  | eat (b : Body) (f : Food) : Step b (b.eat f)
  | cmd (b : Body) (c : Cmd) : Step b (b.applyCmd c)

/-- No single operation decreases the body's energy. -/
lemma step_energy (b b2 : Body) (h : Step b b2) : b.energy ≤ b2.energy := by
  cases h with
  | tick h2 ht => exact tick_energy _ _ ht
  | eat f => exact le_rfl
  | cmd c => cases c <;> exact le_rfl

/-- C4: Body.energy is non-decreasing across the lifetime of a Body instance:
along any sequence of operations (ticks, eat, external commands) the energy
field never decreases. -/
theorem body_energy_monotone (b b2 : Body) (h : Relation.ReflTransGen Step b b2) :
    b.energy ≤ b2.energy := by
  induction h with
  | refl => exact le_rfl
  | tail _ hstep ih => exact le_trans ih (step_energy _ _ hstep)

/-- Witness for C4: one eat step from the fresh default body. -/
theorem body_energy_monotone_witness :
    Relation.ReflTransGen Step (Body.init envDefault condNone) mealBody ∧
    (Body.init envDefault condNone).energy ≤ mealBody.energy :=
  ⟨Relation.ReflTransGen.single (Step.eat (Body.init envDefault condNone) pasta),
   body_energy_monotone (Body.init envDefault condNone) mealBody
     (Relation.ReflTransGen.single (Step.eat (Body.init envDefault condNone) pasta))⟩

/-- Body states reachable by the simulation: a fresh body, then any
interleaving of successful ticks, meals and external commands. -/
inductive Reachable : Body → Prop where
  | init (env : Environment) (cond : Conditions) : Reachable (Body.init env cond)
  | tick (b b2 : Body) : Reachable b → b.tick = some b2 → Reachable b2
  | eat (b : Body) (f : Food) : Reachable b → Reachable (b.eat f)
  | cmd (b : Body) (c : Cmd) : Reachable b → Reachable (b.applyCmd c)

/-- The structural invariant that keeps every tick exception-free: in the
mouth, esophagus, stomach and duodenum stages the body holds a food object,
and in the small-intestine stage the organ holds its own copy. -/
def BodyInv (b : Body) : Prop :=
  (b.stage = Stage.mouth ∨ b.stage = Stage.esophagus ∨ b.stage = Stage.stomach ∨
      b.stage = Stage.duodenum → b.food.isSome) ∧
  (b.stage = Stage.small_intestine → b.small_intestine.food.isSome)

/-- A fresh body satisfies the invariant (it is idle). -/
lemma bodyInv_init (env : Environment) (cond : Conditions) : BodyInv (Body.init env cond) := by
  constructor
  · rintro (h | h | h | h) <;> simp [Body.init] at h
  · intro h; simp [Body.init] at h

/-- Eating preserves the invariant. -/
lemma bodyInv_eat (b : Body) (f : Food) : BodyInv (b.eat f) := by
  constructor
  · intro; rfl
  · intro h; simp [Body.eat] at h

/-- External commands preserve the invariant: they never change the stage, the
body's food, or the small intestine's food. -/
lemma bodyInv_cmd (b : Body) (c : Cmd) (h : BodyInv b) : BodyInv (b.applyCmd c) := by
  cases c <;> exact h

/-- The dispatch phase preserves the invariant. -/
lemma bodyInv_dispatch (b b2 : Body) (hinv : BodyInv b) (h : b.dispatch = some b2) :
    BodyInv b2 := by
  cases hst : b.stage <;> simp only [Body.dispatch, hst] at h
  case idle =>
    obtain rfl := Option.some.inj h
    have hstage : (b.set_hunger_from_flags).stage = b.stage := by
      rw [Body.set_hunger_from_flags]; split <;> rfl
    refine ⟨fun hc => ?_, fun hc => ?_⟩ <;> rw [hstage, hst] at hc <;> simp at hc
  case mouth =>
    cases hf : b.food with
    | none => rw [hf] at h; simp at h
    | some f =>
        rw [hf] at h
        obtain rfl := Option.some.inj h
        exact ⟨fun _ => rfl, fun hc => by simp at hc⟩
  case esophagus =>
    obtain rfl := Option.some.inj h
    refine ⟨fun _ => ?_, fun hc => by simp at hc⟩
    show b.food.isSome
    exact hinv.1 (Or.inr (Or.inl hst))
  case stomach =>
    cases hsf : b.stomach.food with
    | none =>
        rw [hsf] at h
        cases hf : b.food with
        | none => rw [hf] at h; simp at h
        | some f =>
            rw [hf] at h
            obtain rfl := Option.some.inj h
            exact ⟨fun _ => rfl, fun hc => by simp at hc⟩
    | some f0 =>
        rw [hsf] at h
        cases hd : (b.stomach.digest_tick).2 with
        | running r =>
            rw [hd] at h
            obtain rfl := Option.some.inj h
            refine ⟨fun _ => ?_, fun hc => by simp at hc⟩
            show b.food.isSome
            exact hinv.1 (Or.inr (Or.inr (Or.inl hst)))
        | finished fin =>
            rw [hd] at h
            obtain rfl := Option.some.inj h
            exact ⟨fun _ => rfl, fun hc => by simp at hc⟩
  case duodenum =>
    cases hp : (b.duodenum.process_tick b.hormones).2 with
    | true =>
        rw [hp] at h; simp only [if_true] at h
        obtain rfl := Option.some.inj h
        refine ⟨fun _ => ?_, fun hc => by simp at hc⟩
        show b.food.isSome
        exact hinv.1 (Or.inr (Or.inr (Or.inr hst)))
    | false =>
        rw [hp] at h
        simp only [Bool.false_eq_true, if_false] at h
        cases hf : b.food with
        | none => rw [hf] at h; simp at h
        | some f =>
            rw [hf] at h
            obtain rfl := Option.some.inj h
            refine ⟨fun hc => ?_, fun _ => rfl⟩
            rcases hc with hc | hc | hc | hc <;> simp at hc
  case small_intestine =>
    cases habs : b.small_intestine.absorb_tick b.cond b.env b.hormones with
    | none => rw [habs] at h; simp at h
    | some p =>
        obtain ⟨si, r⟩ := p
        cases r with
        | running rem =>
            rw [habs] at h
            obtain rfl := Option.some.inj h
            refine ⟨fun hc => ?_, fun _ => ?_⟩
            · rcases hc with hc | hc | hc | hc <;> simp at hc
            · show si.food.isSome
              have hfood : si.food = b.small_intestine.food := by
                rw [SmallIntestine.absorb_tick] at habs
                split at habs
                · simp only [Option.some.injEq, Prod.mk.injEq] at habs
                  rw [← habs.1]
                · cases hsf : b.small_intestine.food with
                  | none => rw [hsf] at habs; simp at habs
                  | some f => rw [hsf] at habs; simp at habs
              rw [hfood]
              exact hinv.2 hst
        | finished a e =>
            rw [habs] at h
            obtain rfl := Option.some.inj h
            refine ⟨fun hc => ?_, fun hc => by simp at hc⟩
            rcases hc with hc | hc | hc | hc <;> simp at hc
  case large_intestine =>
    cases hp : (b.large_intestine.tick).2 with
    | true =>
        rw [hp] at h; simp only [if_true] at h
        obtain rfl := Option.some.inj h
        refine ⟨fun hc => ?_, fun hc => ?_⟩
        · rcases hc with hc | hc | hc | hc <;> simp at hc
        · simp at hc
    | false =>
        rw [hp] at h
        simp only [Bool.false_eq_true, if_false] at h
        obtain rfl := Option.some.inj h
        refine ⟨fun hc => ?_, fun hc => ?_⟩
        · rcases hc with hc | hc | hc | hc <;> simp at hc
        · simp at hc
  case rectum =>
    obtain rfl := Option.some.inj h
    refine ⟨fun hc => ?_, fun hc => ?_⟩
    · rcases hc with hc | hc | hc | hc <;> simp at hc
    · simp at hc

/-- The bookkeeping phase preserves the invariant. -/
lemma bodyInv_preTick (b : Body) (h : BodyInv b) : BodyInv b.preTick := by
  obtain ⟨hs, -, -, -, -, hf, -, -, hsi, -⟩ := preTick_spec b
  constructor
  · intro hx; rw [hs] at hx; rw [hf]; exact h.1 hx
  · intro hx; rw [hs] at hx; rw [hsi]; exact h.2 hx

/-- The postlude phase preserves the invariant. -/
lemma bodyInv_postTick (b : Body) (h : BodyInv b) : BodyInv b.postTick := by
  obtain ⟨hs, -, -, -, -, hf, -, -, hsi, -⟩ := postTick_spec b
  constructor
  · intro hx; rw [hs] at hx; rw [hf]; exact h.1 hx
  · intro hx; rw [hs] at hx; rw [hsi]; exact h.2 hx

/-- A successful tick preserves the invariant. -/
lemma bodyInv_tick (b b2 : Body) (hinv : BodyInv b) (h : b.tick = some b2) : BodyInv b2 := by
  rw [Body.tick] at h
  cases hd : b.preTick.dispatch with
  | none => rw [hd] at h; simp at h
  | some c =>
      rw [hd] at h
      have hb2 : b2 = c.postTick := by simpa using h.symm
      subst hb2
      exact bodyInv_postTick _ (bodyInv_dispatch _ _ (bodyInv_preTick _ hinv) hd)

/-- Every reachable body satisfies the structural invariant. -/
lemma reachable_inv (b : Body) (h : Reachable b) : BodyInv b := by
  induction h with
  | init env cond => exact bodyInv_init env cond
  | tick b b2 hr ht ih => exact bodyInv_tick b b2 ih ht
  | eat b f hr ih => exact bodyInv_eat b f
  | cmd b c hr ih => exact bodyInv_cmd b c ih

/-- Under the invariant the dispatch phase always produces a state: none of
the sources of AttributeError can fire. -/
lemma dispatch_isSome (b : Body) (hinv : BodyInv b) : (b.dispatch).isSome = true := by
  cases hst : b.stage <;> simp only [Body.dispatch, hst]
  case idle => rfl
  case mouth =>
    have hx := hinv.1 (Or.inl hst)
    cases hf : b.food with
    | none => simp [hf] at hx
    | some f => rfl
  case esophagus => rfl
  case stomach =>
    cases hsf : b.stomach.food with
    | none =>
        have hx := hinv.1 (Or.inr (Or.inr (Or.inl hst)))
        cases hf : b.food with
        | none => simp [hf] at hx
        | some f => rfl
    | some f0 =>
        cases hd : (b.stomach.digest_tick).2 with
        | running r => rfl
        | finished fin => rfl
  case duodenum =>
    cases hp : (b.duodenum.process_tick b.hormones).2 with
    | true => rfl
    | false =>
        simp only [Bool.false_eq_true, if_false]
        have hx := hinv.1 (Or.inr (Or.inr (Or.inr hst)))
        cases hf : b.food with
        | none => simp [hf] at hx
        | some f => rfl
  case small_intestine =>
    have hsifood := hinv.2 hst
    cases habs : b.small_intestine.absorb_tick b.cond b.env b.hormones with
    | none =>
        exfalso
        rw [SmallIntestine.absorb_tick] at habs
        split at habs
        · simp at habs
        · cases hsf : b.small_intestine.food with
          | none => rw [hsf] at hsifood; simp at hsifood
          | some f => rw [hsf] at habs; simp at habs
    | some p =>
        obtain ⟨si, r⟩ := p
        cases r <;> rfl
  case large_intestine =>
    cases hp : (b.large_intestine.tick).2 with
    | true => rfl
    | false => simp
  case rectum => rfl

/-- C8: Body.tick never raises an exception on any reachable state: each
would-be AttributeError site is protected by the structural invariant, and the
stomach-completion branch substitutes the zero-nutrient chyme placeholder when
the finished food is absent. -/
theorem tick_never_raises (b : Body) (h : Reachable b) : (b.tick).isSome = true := by
  rw [Body.tick]
  have hd := dispatch_isSome b.preTick (bodyInv_preTick b (reachable_inv b h))
  cases hx : b.preTick.dispatch with
  | none => rw [hx] at hd; simp at hd
  | some c => rfl

/-- Witness for C8 at the fresh default body. -/
theorem tick_never_raises_witness :
    ((Body.init envDefault condNone).tick).isSome = true :=
  tick_never_raises _ (Reachable.init envDefault condNone)

/-- Iterated ticks from a reachable state stay reachable. -/
lemma reachable_run (n : ℕ) (b b2 : Body) (hr : Reachable b) (h : b.run n = some b2) :
    Reachable b2 := by
  induction n generalizing b with
  | zero =>
      simp only [Body.run] at h
      obtain rfl := Option.some.inj h
      exact hr
  | succ n ih =>
      rw [Body.run] at h
      cases ht : b.tick with
      | none => rw [ht] at h; simp at h
      | some c => exact ih c (Reachable.tick b c hr ht) (by rw [ht] at h; exact h)

/-! ### The skip command -/

/-- A successful dispatch determines the whole tick. -/
lemma tick_of_dispatch (b c : Body) (h : b.preTick.dispatch = some c) :
    b.tick = some c.postTick := by
  rw [Body.tick, h]; rfl

/-- Helper: the toNat of a max with 2 is at least 2. -/
lemma toNat_max_two (x : ℤ) : 2 ≤ (max 2 x).toNat := by
  have h1 : (2 : ℤ) ≤ max 2 x := le_max_left _ _
  omega

/-- The computed stomach duration is never below the configured minimum 2. -/
lemma start_digestion_timer_ge_two (s : Stomach) (f : Food) (h : Hormones)
    (cond : Conditions) (env : Environment) :
    2 ≤ (s.start_digestion f h cond env).timer :=
  toNat_max_two _

/-- Dispatch in the stomach stage with digestion not started: start_digestion
runs and the stage stays stomach. -/
lemma dispatch_stomach_start (c : Body) (hst : c.stage = Stage.stomach)
    (hsf : c.stomach.food = none) (f : Food) (hf : c.food = some f) :
    ∃ c2, c.dispatch = some c2 ∧ c2.stage = Stage.stomach ∧
      c2.stomach = c.stomach.start_digestion f c.hormones c.cond c.env := by
  simp only [Body.dispatch, hst, hsf, hf]
  exact ⟨_, rfl, rfl, rfl⟩

/-- Dispatch in the stomach stage with stored food and timer 0: digestion
finishes and the stage advances to duodenum within the same tick. -/
lemma dispatch_stomach_digesting_zero (c : Body) (hst : c.stage = Stage.stomach)
    (hf : c.stomach.food.isSome = true) (ht : c.stomach.timer = 0) :
    ∃ c2, c.dispatch = some c2 ∧ c2.stage = Stage.duodenum ∧ c2.food.isSome = true := by
  obtain ⟨f0, hf0⟩ := Option.isSome_iff_exists.mp hf
  have hd : c.stomach.digest_tick =
      ({ c.stomach with food := none },
        .finished (some { f0 with
          proteins := max 0 (f0.proteins * 0.5 * c.stomach.gastrin_factor) })) := by
    rw [Stomach.digest_tick, if_neg (by omega), hf0]
  simp only [Body.dispatch, hst, hf0, hd]
  exact ⟨_, rfl, rfl, rfl⟩

/-- Dispatch in the duodenum stage with timer 0: the stage advances to the
small intestine and absorption starts, leaving the small-intestine timer as
it was. -/
lemma dispatch_duodenum_zero (c : Body) (hst : c.stage = Stage.duodenum)
    (ht : c.duodenum.timer = 0) (f : Food) (hf : c.food = some f) :
    ∃ c2, c.dispatch = some c2 ∧ c2.stage = Stage.small_intestine ∧
      c2.small_intestine.food.isSome = true ∧
      c2.small_intestine.timer = c.small_intestine.timer := by
  have hp : c.duodenum.process_tick c.hormones = (c.duodenum, false) := by
    rw [Duodenum.process_tick, if_neg (by omega)]
  simp only [Body.dispatch, hst, hp, Bool.false_eq_true, if_false, hf]
  exact ⟨_, rfl, rfl, rfl, rfl⟩

/-- Dispatch in the small-intestine stage with stored food and timer 0:
absorption completes and the stage advances to the large intestine. -/
lemma dispatch_small_zero (c : Body) (hst : c.stage = Stage.small_intestine)
    (hf : c.small_intestine.food.isSome = true) (ht : c.small_intestine.timer = 0) :
    ∃ c2, c.dispatch = some c2 ∧ c2.stage = Stage.large_intestine := by
  obtain ⟨f0, hf0⟩ := Option.isSome_iff_exists.mp hf
  cases habs : c.small_intestine.absorb_tick c.cond c.env c.hormones with
  | none =>
      exfalso
      rw [SmallIntestine.absorb_tick] at habs
      split at habs
      · simp at habs
      · rw [hf0] at habs; simp at habs
  | some p =>
      obtain ⟨si2, r⟩ := p
      cases r with
      | running rem =>
          exfalso
          rw [SmallIntestine.absorb_tick] at habs
          split at habs
          · omega
          · rw [hf0] at habs; simp at habs
      | finished a e =>
          simp only [Body.dispatch, hst, habs]
          exact ⟨_, rfl, rfl⟩

/-- Dispatch in the large-intestine stage with timer 0: the stage advances to
the rectum. -/
lemma dispatch_large_zero (c : Body) (hst : c.stage = Stage.large_intestine)
    (ht : c.large_intestine.timer = 0) :
    ∃ c2, c.dispatch = some c2 ∧ c2.stage = Stage.rectum := by
  have hp : c.large_intestine.tick = (c.large_intestine, false) := by
    rw [LargeIntestine.tick, if_neg (by omega)]
  simp only [Body.dispatch, hst, hp, Bool.false_eq_true, if_false]
  exact ⟨_, rfl, rfl⟩

/-- Dispatch in the rectum stage: full reset to idle with fresh organs. -/
lemma dispatch_rectum (c : Body) (hst : c.stage = Stage.rectum) :
    ∃ c2, c.dispatch = some c2 ∧ c2.stage = Stage.idle ∧ c2.stomach = Stomach.init ∧
      c2.duodenum = Duodenum.init ∧ c2.small_intestine = SmallIntestine.init ∧
      c2.large_intestine = LargeIntestine.init := by
  simp only [Body.dispatch, hst]
  exact ⟨_, rfl, rfl, rfl, rfl, rfl, rfl⟩

/-- The reachable state two ticks into the default Pasta meal: the stage is
stomach, but digestion has not started yet (the start call happens on the
next tick). -/
def preStomachBody : Body := (mealBody.run 2).getD mealBody

/-- Counterexample to C7 as stated: in the reachable state where the stage is
stomach but digestion has not started, the skip command zeroes the timer, yet
the next tick immediately re-initializes it through start_digestion (to 4
here), so the stomach stage does not complete immediately: it is still the
stomach stage on the next tick and on the tick after it. -/
theorem skip_not_always_immediate :
    mealBody.run 2 = some preStomachBody ∧
    preStomachBody.stage = Stage.stomach ∧
    preStomachBody.stomach.food = none ∧
    (preStomachBody.applyCmd Cmd.skip).stomach.timer = 0 ∧
    ((preStomachBody.applyCmd Cmd.skip).tick).map Body.stage = some Stage.stomach ∧
    ((preStomachBody.applyCmd Cmd.skip).tick).map (fun b => b.stomach.timer) = some 4 ∧
    (((preStomachBody.applyCmd Cmd.skip).tick).bind Body.tick).map Body.stage
      = some Stage.stomach := by
  refine ⟨?_, ?_, ?_, ?_, ?_, ?_, ?_⟩ <;> with_unfolding_all rfl

/-- What the skip command guarantees, stated for one body: every timed stage
whose organ is already started completes on the very next tick; if the
stomach stage was entered but not started, the next tick still initializes
the stomach timer through the normal formula (at least the minimum 2) and
stores the food; and a rectum-stage tick re-creates all organs with their
base timers for the next cycle. -/
def SkipSpec (b : Body) : Prop :=
  (b.stage = Stage.stomach → b.stomach.food.isSome = true →
    ∃ b2, (b.applyCmd Cmd.skip).tick = some b2 ∧ b2.stage = Stage.duodenum) ∧
  (b.stage = Stage.duodenum →
    ∃ b2, (b.applyCmd Cmd.skip).tick = some b2 ∧ b2.stage = Stage.small_intestine) ∧
  (b.stage = Stage.small_intestine →
    ∃ b2, (b.applyCmd Cmd.skip).tick = some b2 ∧ b2.stage = Stage.large_intestine) ∧
  (b.stage = Stage.large_intestine →
    ∃ b2, (b.applyCmd Cmd.skip).tick = some b2 ∧ b2.stage = Stage.rectum) ∧
  (b.stage = Stage.stomach → b.stomach.food = none →
    ∃ b2, (b.applyCmd Cmd.skip).tick = some b2 ∧ b2.stage = Stage.stomach ∧
      2 ≤ b2.stomach.timer ∧ b2.stomach.food.isSome = true) ∧
  (b.stage = Stage.rectum →
    ∃ b2, (b.applyCmd Cmd.skip).tick = some b2 ∧ b2.stage = Stage.idle ∧
      b2.stomach.timer = 6 ∧ b2.duodenum.timer = 2 ∧
      b2.small_intestine.timer = 18 ∧ b2.large_intestine.timer = 36)

/-- C7 amended: on every reachable state, the skip command forces the current
timed stage to complete on the next tick provided its organ has started
(always the case for duodenum, small intestine — whose stored food exists by
the reachability invariant — and large intestine); when the stomach stage was
entered but start_digestion has not run yet, the skip does not force
immediate completion: the next tick re-initializes the stomach timer through
the normal formula (minimum 2), uncorrupted; and the rectum reset still
restores all base timers for the next cycle. -/
theorem skip_forces_completion (b : Body) (hr : Reachable b) : SkipSpec b := by
  have hinv := reachable_inv b hr
  obtain ⟨hs1, hs2, hs3, hs4, hs5, hs6, hs7, hs8, hs9, hs10, hs11, hs12, hs13⟩ :=
    preTick_spec (b.applyCmd Cmd.skip)
  refine ⟨?_, ?_, ?_, ?_, ?_, ?_⟩
  · intro hst hsf
    obtain ⟨c2, hd, hst2, -⟩ := dispatch_stomach_digesting_zero (b.applyCmd Cmd.skip).preTick
      (by rw [hs1]; exact hst) (by rw [hs7]; exact hsf) (by rw [hs7]; rfl)
    exact ⟨c2.postTick, tick_of_dispatch _ _ hd, ((postTick_spec c2).1).trans hst2⟩
  · intro hst
    have hf : b.food.isSome = true := hinv.1 (Or.inr (Or.inr (Or.inr hst)))
    obtain ⟨f, hf0⟩ := Option.isSome_iff_exists.mp hf
    obtain ⟨c2, hd, hst2, -, -⟩ := dispatch_duodenum_zero (b.applyCmd Cmd.skip).preTick
      (by rw [hs1]; exact hst) (by rw [hs8]; rfl) f (by rw [hs6]; exact hf0)
    exact ⟨c2.postTick, tick_of_dispatch _ _ hd, ((postTick_spec c2).1).trans hst2⟩
  · intro hst
    have hf : b.small_intestine.food.isSome = true := hinv.2 hst
    obtain ⟨c2, hd, hst2⟩ := dispatch_small_zero (b.applyCmd Cmd.skip).preTick
      (by rw [hs1]; exact hst) (by rw [hs9]; exact hf) (by rw [hs9]; rfl)
    exact ⟨c2.postTick, tick_of_dispatch _ _ hd, ((postTick_spec c2).1).trans hst2⟩
  · intro hst
    obtain ⟨c2, hd, hst2⟩ := dispatch_large_zero (b.applyCmd Cmd.skip).preTick
      (by rw [hs1]; exact hst) (by rw [hs10]; rfl)
    exact ⟨c2.postTick, tick_of_dispatch _ _ hd, ((postTick_spec c2).1).trans hst2⟩
  · intro hst hsf
    have hf : b.food.isSome = true := hinv.1 (Or.inr (Or.inr (Or.inl hst)))
    obtain ⟨f, hf0⟩ := Option.isSome_iff_exists.mp hf
    obtain ⟨c2, hd, hst2, hsto2⟩ := dispatch_stomach_start (b.applyCmd Cmd.skip).preTick
      (by rw [hs1]; exact hst) (by rw [hs7]; exact hsf) f (by rw [hs6]; exact hf0)
    refine ⟨c2.postTick, tick_of_dispatch _ _ hd, ((postTick_spec c2).1).trans hst2, ?_, ?_⟩
    · rw [(postTick_spec c2).2.2.2.2.2.2.1, hsto2]
      exact start_digestion_timer_ge_two _ _ _ _ _
    · rw [(postTick_spec c2).2.2.2.2.2.2.1, hsto2]
      rw [Stomach.start_digestion]
      rfl
  · intro hst
    obtain ⟨c2, hd, hst2, hsto, hduo, hsi, hli⟩ := dispatch_rectum (b.applyCmd Cmd.skip).preTick
      (by rw [hs1]; exact hst)
    refine ⟨c2.postTick, tick_of_dispatch _ _ hd, ((postTick_spec c2).1).trans hst2,
           ?_, ?_, ?_, ?_⟩
    · rw [(postTick_spec c2).2.2.2.2.2.2.1, hsto]; rfl
    · rw [(postTick_spec c2).2.2.2.2.2.2.2.1, hduo]; rfl
    · rw [(postTick_spec c2).2.2.2.2.2.2.2.2.1, hsi]; rfl
    · rw [(postTick_spec c2).2.2.2.2.2.2.2.2.2.1, hli]; rfl

/-- The reachable state eight ticks into the default Pasta meal: the stage is
the duodenum with its timer still positive. -/
def duodenumBody : Body := (mealBody.run 8).getD mealBody

/-- Witness for the amended C7 at a concrete reachable duodenum-stage state. -/
theorem skip_forces_completion_witness : SkipSpec duodenumBody :=
  skip_forces_completion duodenumBody
    (reachable_run 8 mealBody duodenumBody
      (Reachable.eat (Body.init envDefault condNone) pasta
        (Reachable.init envDefault condNone))
      (by with_unfolding_all rfl))

/-! ### The stage trace of one uninterrupted meal -/

/-- Running zero ticks does nothing. -/
lemma run_zero (b : Body) : b.run 0 = some b := rfl

/-- One more tick in front of a run. -/
lemma run_succ_some (b c : Body) (n : ℕ) (h : b.tick = some c) :
    b.run (n + 1) = c.run n := by
  rw [Body.run, h]; rfl

/-- Running a single successful tick. -/
lemma run_one (b c : Body) (h : b.tick = some c) : b.run 1 = some c :=
  run_succ_some b c 0 h

/-- A one-entry stage trace observes the current stage, tick or no tick. -/
lemma stageTrace_one (b : Body) : b.stageTrace 1 = [b.stage] := by
  rw [Body.stageTrace]
  cases b.tick <;> rfl

/-- Peeling one successful tick off a stage trace. -/
lemma stageTrace_succ_some (b c : Body) (n : ℕ) (h : b.tick = some c) :
    b.stageTrace (n + 1) = b.stage :: c.stageTrace n := by
  rw [Body.stageTrace, h]

/-- A stage trace splits along an intermediate successful run. -/
lemma stageTrace_add (n : ℕ) : ∀ (b c : Body) (m : ℕ), b.run n = some c →
    b.stageTrace (n + m) = b.stageTrace n ++ c.stageTrace m := by
  induction n with
  | zero =>
      intro b c m h
      simp only [run_zero, Option.some.injEq] at h
      subst h
      rw [Nat.zero_add]
      rfl
  | succ n ih =>
      intro b c m h
      cases ht : b.tick with
      | none => rw [Body.run, ht] at h; simp at h
      | some d =>
          rw [run_succ_some b d n ht] at h
          have harith : n + 1 + m = (n + m) + 1 := by omega
          rw [harith, stageTrace_succ_some b d (n + m) ht,
              stageTrace_succ_some b d n ht, ih d c m h]
          rfl

/-- Dispatch in the mouth stage: the one-shot transformation runs and the
stage advances to the esophagus in the same call. -/
lemma dispatchSeg_mouth (c : Body) (hst : c.stage = Stage.mouth)
    (f : Food) (hf : c.food = some f) :
    ∃ c2, c.dispatch = some c2 ∧ c2.stage = Stage.esophagus ∧ c2.food.isSome = true ∧
      c2.stomach = c.stomach ∧ c2.duodenum = c.duodenum ∧
      c2.small_intestine = c.small_intestine ∧ c2.large_intestine = c.large_intestine ∧
      c2.env = c.env ∧ c2.cond = c.cond := by
  simp only [Body.dispatch, hst, hf]
  exact ⟨_, rfl, rfl, rfl, rfl, rfl, rfl, rfl, rfl, rfl⟩

/-- Dispatch in the esophagus stage: a pure pass-through to the stomach
stage. -/
lemma dispatchSeg_esophagus (c : Body) (hst : c.stage = Stage.esophagus) :
    ∃ c2, c.dispatch = some c2 ∧ c2.stage = Stage.stomach ∧ c2.food = c.food ∧
      c2.stomach = c.stomach ∧ c2.duodenum = c.duodenum ∧
      c2.small_intestine = c.small_intestine ∧ c2.large_intestine = c.large_intestine ∧
      c2.env = c.env ∧ c2.cond = c.cond ∧ c2.prev_stage = c.prev_stage := by
  simp only [Body.dispatch, hst]
  exact ⟨_, rfl, rfl, rfl, rfl, rfl, rfl, rfl, rfl, rfl, rfl⟩

/-- Dispatch in the stomach stage while digesting with a positive timer: the
timer goes down by one and nothing else changes. -/
lemma dispatchSeg_stomach_run (c : Body) (hst : c.stage = Stage.stomach)
    (f0 : Food) (hsf : c.stomach.food = some f0) (ht : 0 < c.stomach.timer) :
    ∃ c2, c.dispatch = some c2 ∧ c2.stage = Stage.stomach ∧
      c2.stomach.food = c.stomach.food ∧ c2.stomach.timer = c.stomach.timer - 1 ∧
      c2.food = c.food ∧ c2.duodenum = c.duodenum ∧
      c2.small_intestine = c.small_intestine ∧ c2.large_intestine = c.large_intestine ∧
      c2.env = c.env ∧ c2.cond = c.cond := by
  have hd : c.stomach.digest_tick =
      ({ c.stomach with timer := c.stomach.timer - 1 }, .running (c.stomach.timer - 1)) := by
    rw [Stomach.digest_tick, if_pos ht]
  simp only [Body.dispatch, hst, hsf, hd]
  exact ⟨_, rfl, rfl, rfl, rfl, rfl, rfl, rfl, rfl, rfl, rfl⟩

/-- Dispatch in the stomach stage at timer 0 with stored food: digestion
finishes, the finished food is handed to the body and the stage advances to
the duodenum. -/
lemma dispatchSeg_stomach_finish (c : Body) (hst : c.stage = Stage.stomach)
    (f0 : Food) (hsf : c.stomach.food = some f0) (ht : c.stomach.timer = 0) :
    ∃ c2, c.dispatch = some c2 ∧ c2.stage = Stage.duodenum ∧ c2.food.isSome = true ∧
      c2.duodenum = c.duodenum ∧ c2.small_intestine = c.small_intestine ∧
      c2.large_intestine = c.large_intestine ∧ c2.env = c.env ∧ c2.cond = c.cond := by
  have hd : c.stomach.digest_tick =
      ({ c.stomach with food := none },
        .finished (some { f0 with
          proteins := max 0 (f0.proteins * 0.5 * c.stomach.gastrin_factor) })) := by
    rw [Stomach.digest_tick, if_neg (by omega), hsf]
  simp only [Body.dispatch, hst, hsf, hd]
  exact ⟨_, rfl, rfl, rfl, rfl, rfl, rfl, rfl, rfl⟩

/-- Dispatch in the duodenum stage with a positive timer: the timer goes down
by one and nothing else changes. -/
lemma dispatchSeg_duodenum_run (c : Body) (hst : c.stage = Stage.duodenum)
    (ht : 0 < c.duodenum.timer) :
    ∃ c2, c.dispatch = some c2 ∧ c2.stage = Stage.duodenum ∧
      c2.duodenum.timer = c.duodenum.timer - 1 ∧ c2.food = c.food ∧
      c2.small_intestine = c.small_intestine ∧ c2.large_intestine = c.large_intestine ∧
      c2.env = c.env ∧ c2.cond = c.cond := by
  have hp : c.duodenum.process_tick c.hormones =
      ({ timer := c.duodenum.timer - 1 }, true) := by
    rw [Duodenum.process_tick, if_pos ht]
  simp only [Body.dispatch, hst, hp]
  exact ⟨_, rfl, rfl, rfl, rfl, rfl, rfl, rfl, rfl⟩

/-- Dispatch in the duodenum stage at timer 0: absorption starts (keeping the
small-intestine timer as it was) and the stage advances. -/
lemma dispatchSeg_duodenum_finish (c : Body) (hst : c.stage = Stage.duodenum)
    (ht : c.duodenum.timer = 0) (f : Food) (hf : c.food = some f) :
    ∃ c2, c.dispatch = some c2 ∧ c2.stage = Stage.small_intestine ∧
      c2.small_intestine.food.isSome = true ∧
      c2.small_intestine.timer = c.small_intestine.timer ∧
      c2.large_intestine = c.large_intestine ∧ c2.env = c.env ∧ c2.cond = c.cond := by
  have hp : c.duodenum.process_tick c.hormones = (c.duodenum, false) := by
    rw [Duodenum.process_tick, if_neg (by omega)]
  simp only [Body.dispatch, hst, hp, Bool.false_eq_true, if_false, hf]
  exact ⟨_, rfl, rfl, rfl, rfl, rfl, rfl, rfl⟩

/-- Dispatch in the small-intestine stage with a positive timer: the timer
goes down by one and nothing else changes. -/
lemma dispatchSeg_small_run (c : Body) (hst : c.stage = Stage.small_intestine)
    (ht : 0 < c.small_intestine.timer) :
    ∃ c2, c.dispatch = some c2 ∧ c2.stage = Stage.small_intestine ∧
      c2.small_intestine.food = c.small_intestine.food ∧
      c2.small_intestine.timer = c.small_intestine.timer - 1 ∧
      c2.large_intestine = c.large_intestine ∧ c2.env = c.env ∧ c2.cond = c.cond := by
  have ha : c.small_intestine.absorb_tick c.cond c.env c.hormones =
      some ({ c.small_intestine with timer := c.small_intestine.timer - 1 },
        .running (c.small_intestine.timer - 1)) := by
    rw [SmallIntestine.absorb_tick, if_pos ht]
  simp only [Body.dispatch, hst, ha]
  exact ⟨_, rfl, rfl, rfl, rfl, rfl, rfl, rfl⟩

/-- Dispatch in the small-intestine stage at timer 0 with stored food:
absorption completes, metabolism runs, and the stage advances to the large
intestine. -/
lemma dispatchSeg_small_finish (c : Body) (hst : c.stage = Stage.small_intestine)
    (f0 : Food) (hsf : c.small_intestine.food = some f0) (ht : c.small_intestine.timer = 0) :
    ∃ c2, c.dispatch = some c2 ∧ c2.stage = Stage.large_intestine ∧
      c2.large_intestine = c.large_intestine ∧ c2.env = c.env ∧ c2.cond = c.cond := by
  cases habs : c.small_intestine.absorb_tick c.cond c.env c.hormones with
  | none =>
      exfalso
      rw [SmallIntestine.absorb_tick] at habs
      split at habs
      · simp at habs
      · rw [hsf] at habs; simp at habs
  | some p =>
      obtain ⟨si2, r⟩ := p
      cases r with
      | running rem =>
          exfalso
          rw [SmallIntestine.absorb_tick] at habs
          split at habs
          · omega
          · rw [hsf] at habs; simp at habs
      | finished a e =>
          simp only [Body.dispatch, hst, habs]
          exact ⟨_, rfl, rfl, rfl, rfl, rfl⟩

/-- Dispatch in the large-intestine stage with a positive timer: the timer
goes down by one and nothing else changes. -/
lemma dispatchSeg_large_run (c : Body) (hst : c.stage = Stage.large_intestine)
    (ht : 0 < c.large_intestine.timer) :
    ∃ c2, c.dispatch = some c2 ∧ c2.stage = Stage.large_intestine ∧
      c2.large_intestine.timer = c.large_intestine.timer - 1 ∧
      c2.env = c.env ∧ c2.cond = c.cond := by
  have hp : c.large_intestine.tick =
      ({ timer := c.large_intestine.timer - 1 }, true) := by
    rw [LargeIntestine.tick, if_pos ht]
  simp only [Body.dispatch, hst, hp]
  exact ⟨_, rfl, rfl, rfl, rfl, rfl⟩

/-- Dispatch in the stomach stage with digestion not started, with all
preserved fields reported. -/
lemma dispatchSeg_stomach_start (c : Body) (hst : c.stage = Stage.stomach)
    (hsf : c.stomach.food = none) (f : Food) (hf : c.food = some f) :
    ∃ c2, c.dispatch = some c2 ∧ c2.stage = Stage.stomach ∧
      c2.stomach = c.stomach.start_digestion f c.hormones c.cond c.env ∧
      c2.food = c.food ∧ c2.duodenum = c.duodenum ∧
      c2.small_intestine = c.small_intestine ∧ c2.large_intestine = c.large_intestine ∧
      c2.env = c.env ∧ c2.cond = c.cond := by
  simp only [Body.dispatch, hst, hsf, hf]
  exact ⟨_, rfl, rfl, rfl, rfl, rfl, rfl, rfl, rfl, rfl⟩

/-- On entry into the stomach stage (previous stage differs) the bookkeeping
phase sets gastrin High and ghrelin Low before the dispatch runs; this is why
the very first start_digestion of a meal sees gastrin High. -/
lemma preTick_stomach_entry (b : Body) (hst : b.stage = Stage.stomach)
    (hprev : b.prev_stage ≠ some Stage.stomach) :
    b.preTick.hormones.gastrin = "High" ∧ b.preTick.hormones.ghrelin = "Low" := by
  obtain ⟨env, cond, mic, hor, hun, en, st, prev, tks, ttks, fd, ca, met, sto, duo, si, li⟩ := b
  have hst2 : st = Stage.stomach := hst
  subst hst2
  have hprev2 : prev ≠ some Stage.stomach := hprev
  dsimp only [Body.preTick]
  rw [if_pos (by simpa using hprev2)]
  dsimp only [Body.update_hormones_on_stage_entry]
  exact ⟨rfl, rfl⟩

/-- The hormone fields of the meal-entry hormone snapshot used to define
computedStomachTicks. -/
def mealEntryHormones : Hormones :=
  { parasympathetic_stim := "Normal", gastrin := "High", ghrelin := "Low",
    insulin := "Slight", leptin := "Normal" }

/-- The stomach duration computed when a meal cycle enters the stomach stage:
the stage-entry hormone policy has just set gastrin High and ghrelin Low, and
start_digestion reads no other hormone. -/
def computedStomachTicks (cond : Conditions) (env : Environment) : ℕ :=
  (Stomach.init.start_digestion chymePlaceholder mealEntryHormones cond env).timer

/-- start_digestion on a fresh stomach with gastrin High and ghrelin Low
computes exactly the meal stomach duration. -/
lemma start_digestion_timer_eq (s : Stomach) (f : Food) (h : Hormones)
    (cond : Conditions) (env : Environment) (hb : s.base_timer = 6)
    (hg : h.gastrin = "High") (hgh : h.ghrelin = "Low") :
    (s.start_digestion f h cond env).timer = computedStomachTicks cond env := by
  simp only [computedStomachTicks, mealEntryHormones, Stomach.start_digestion, hb, hg, hgh,
             Stomach.init, TIME_MAP_Stomach]

/-- One tick in the mouth stage. -/
lemma tickSeg_mouth (b : Body) (hst : b.stage = Stage.mouth)
    (f : Food) (hf : b.food = some f) :
    ∃ c, b.tick = some c ∧ c.stage = Stage.esophagus ∧ c.food.isSome = true ∧
      c.stomach = b.stomach ∧ c.duodenum = b.duodenum ∧
      c.small_intestine = b.small_intestine ∧ c.large_intestine = b.large_intestine ∧
      c.env = b.env ∧ c.cond = b.cond := by
  obtain ⟨hs1, hs2, hs3, hs4, hs5, hs6, hs7, hs8, hs9, hs10, hs11, hs12, hs13⟩ := preTick_spec b
  obtain ⟨c2, hd, h1, h2, h3, h4, h5, h6, h7, h8⟩ := dispatchSeg_mouth b.preTick
    (by rw [hs1]; exact hst) f (by rw [hs6]; exact hf)
  obtain ⟨hp1, hp2, hp3, hp4, hp5, hp6, hp7, hp8, hp9, hp10, hp11, hp12⟩ := postTick_spec c2
  exact ⟨c2.postTick, tick_of_dispatch _ _ hd, hp1.trans h1, hp6 ▸ h2,
    hp7.trans (h3.trans hs7), hp8.trans (h4.trans hs8), hp9.trans (h5.trans hs9),
    hp10.trans (h6.trans hs10), hp3.trans (h7.trans hs3), hp4.trans (h8.trans hs4)⟩

/-- One tick in the esophagus stage. -/
lemma tickSeg_esophagus (b : Body) (hst : b.stage = Stage.esophagus) :
    ∃ c, b.tick = some c ∧ c.stage = Stage.stomach ∧ c.food = b.food ∧
      c.stomach = b.stomach ∧ c.duodenum = b.duodenum ∧
      c.small_intestine = b.small_intestine ∧ c.large_intestine = b.large_intestine ∧
      c.env = b.env ∧ c.cond = b.cond ∧ c.prev_stage = some Stage.esophagus := by
  obtain ⟨hs1, hs2, hs3, hs4, hs5, hs6, hs7, hs8, hs9, hs10, hs11, hs12, hs13⟩ := preTick_spec b
  obtain ⟨c2, hd, h1, h2, h3, h4, h5, h6, h7, h8, h9⟩ := dispatchSeg_esophagus b.preTick
    (by rw [hs1]; exact hst)
  obtain ⟨hp1, hp2, hp3, hp4, hp5, hp6, hp7, hp8, hp9, hp10, hp11, hp12⟩ := postTick_spec c2
  refine ⟨c2.postTick, tick_of_dispatch _ _ hd, hp1.trans h1, hp6.trans (h2.trans hs6),
    hp7.trans (h3.trans hs7), hp8.trans (h4.trans hs8), hp9.trans (h5.trans hs9),
    hp10.trans (h6.trans hs10), hp3.trans (h7.trans hs3), hp4.trans (h8.trans hs4), ?_⟩
  rw [hp2, h9, hs2, hst]

/-- The first tick after entering the stomach stage: the stage-entry policy
sets gastrin High and ghrelin Low, then start_digestion computes the meal
stomach duration and stores the food. -/
lemma tickSeg_stomach_start (b : Body) (hst : b.stage = Stage.stomach)
    (hsf : b.stomach.food = none) (hprev : b.prev_stage ≠ some Stage.stomach)
    (hsto : b.stomach = Stomach.init) (f : Food) (hf : b.food = some f) :
    ∃ c, b.tick = some c ∧ c.stage = Stage.stomach ∧ c.stomach.food.isSome = true ∧
      c.stomach.timer = computedStomachTicks b.cond b.env ∧ c.food = b.food ∧
      c.duodenum = b.duodenum ∧ c.small_intestine = b.small_intestine ∧
      c.large_intestine = b.large_intestine ∧ c.env = b.env ∧ c.cond = b.cond := by
  obtain ⟨hs1, hs2, hs3, hs4, hs5, hs6, hs7, hs8, hs9, hs10, hs11, hs12, hs13⟩ := preTick_spec b
  have hpg := preTick_stomach_entry b hst hprev
  obtain ⟨c2, hd, h1, h2, h3, h4, h5, h6, h7, h8⟩ := dispatchSeg_stomach_start b.preTick
    (by rw [hs1]; exact hst) (by rw [hs7]; exact hsf) f (by rw [hs6]; exact hf)
  obtain ⟨hp1, hp2, hp3, hp4, hp5, hp6, hp7, hp8, hp9, hp10, hp11, hp12⟩ := postTick_spec c2
  refine ⟨c2.postTick, tick_of_dispatch _ _ hd, hp1.trans h1, ?_, ?_,
    hp6.trans (h3.trans hs6), hp8.trans (h4.trans hs8), hp9.trans (h5.trans hs9),
    hp10.trans (h6.trans hs10), hp3.trans (h7.trans hs3), hp4.trans (h8.trans hs4)⟩
  · rw [hp7, h2]; rfl
  · rw [hp7, h2, hs7, hs3, hs4]
    exact start_digestion_timer_eq b.stomach f b.preTick.hormones b.cond b.env
      (by rw [hsto]; rfl) hpg.1 hpg.2

/-- One tick in the stomach stage while the timer is positive. -/
lemma tickSeg_stomach_run (b : Body) (hst : b.stage = Stage.stomach)
    (f0 : Food) (hsf : b.stomach.food = some f0) (ht : 0 < b.stomach.timer) :
    ∃ c, b.tick = some c ∧ c.stage = Stage.stomach ∧
      c.stomach.food = b.stomach.food ∧ c.stomach.timer = b.stomach.timer - 1 ∧
      c.food = b.food ∧ c.duodenum = b.duodenum ∧ c.small_intestine = b.small_intestine ∧
      c.large_intestine = b.large_intestine ∧ c.env = b.env ∧ c.cond = b.cond := by
  obtain ⟨hs1, hs2, hs3, hs4, hs5, hs6, hs7, hs8, hs9, hs10, hs11, hs12, hs13⟩ := preTick_spec b
  obtain ⟨c2, hd, h1, h2, h3, h4, h5, h6, h7, h8, h9⟩ := dispatchSeg_stomach_run b.preTick
    (by rw [hs1]; exact hst) f0 (by rw [hs7]; exact hsf) (by rw [hs7]; exact ht)
  obtain ⟨hp1, hp2, hp3, hp4, hp5, hp6, hp7, hp8, hp9, hp10, hp11, hp12⟩ := postTick_spec c2
  refine ⟨c2.postTick, tick_of_dispatch _ _ hd, hp1.trans h1, ?_, ?_,
    hp6.trans (h4.trans hs6), hp8.trans (h5.trans hs8), hp9.trans (h6.trans hs9),
    hp10.trans (h7.trans hs10), hp3.trans (h8.trans hs3), hp4.trans (h9.trans hs4)⟩
  · rw [hp7, h2, hs7]
  · rw [hp7, h3, hs7]

/-- The stomach-finishing tick: timer 0 and stored food, advancing to the
duodenum. -/
lemma tickSeg_stomach_finish (b : Body) (hst : b.stage = Stage.stomach)
    (f0 : Food) (hsf : b.stomach.food = some f0) (ht : b.stomach.timer = 0) :
    ∃ c, b.tick = some c ∧ c.stage = Stage.duodenum ∧ c.food.isSome = true ∧
      c.duodenum = b.duodenum ∧ c.small_intestine = b.small_intestine ∧
      c.large_intestine = b.large_intestine ∧ c.env = b.env ∧ c.cond = b.cond := by
  obtain ⟨hs1, hs2, hs3, hs4, hs5, hs6, hs7, hs8, hs9, hs10, hs11, hs12, hs13⟩ := preTick_spec b
  obtain ⟨c2, hd, h1, h2, h3, h4, h5, h6, h7⟩ := dispatchSeg_stomach_finish b.preTick
    (by rw [hs1]; exact hst) f0 (by rw [hs7]; exact hsf) (by rw [hs7]; exact ht)
  obtain ⟨hp1, hp2, hp3, hp4, hp5, hp6, hp7, hp8, hp9, hp10, hp11, hp12⟩ := postTick_spec c2
  exact ⟨c2.postTick, tick_of_dispatch _ _ hd, hp1.trans h1, hp6 ▸ h2,
    hp8.trans (h3.trans hs8), hp9.trans (h4.trans hs9), hp10.trans (h5.trans hs10),
    hp3.trans (h6.trans hs3), hp4.trans (h7.trans hs4)⟩

/-- One tick in the duodenum stage while the timer is positive. -/
lemma tickSeg_duodenum_run (b : Body) (hst : b.stage = Stage.duodenum)
    (ht : 0 < b.duodenum.timer) :
    ∃ c, b.tick = some c ∧ c.stage = Stage.duodenum ∧
      c.duodenum.timer = b.duodenum.timer - 1 ∧ c.food = b.food ∧
      c.small_intestine = b.small_intestine ∧ c.large_intestine = b.large_intestine ∧
      c.env = b.env ∧ c.cond = b.cond := by
  obtain ⟨hs1, hs2, hs3, hs4, hs5, hs6, hs7, hs8, hs9, hs10, hs11, hs12, hs13⟩ := preTick_spec b
  obtain ⟨c2, hd, h1, h2, h3, h4, h5, h6, h7⟩ := dispatchSeg_duodenum_run b.preTick
    (by rw [hs1]; exact hst) (by rw [hs8]; exact ht)
  obtain ⟨hp1, hp2, hp3, hp4, hp5, hp6, hp7, hp8, hp9, hp10, hp11, hp12⟩ := postTick_spec c2
  refine ⟨c2.postTick, tick_of_dispatch _ _ hd, hp1.trans h1, ?_,
    hp6.trans (h3.trans hs6), hp9.trans (h4.trans hs9), hp10.trans (h5.trans hs10),
    hp3.trans (h6.trans hs3), hp4.trans (h7.trans hs4)⟩
  rw [hp8, h2, hs8]

/-- The duodenum-finishing tick: timer 0, starting small-intestine absorption
without touching its timer. -/
lemma tickSeg_duodenum_finish (b : Body) (hst : b.stage = Stage.duodenum)
    (ht : b.duodenum.timer = 0) (f : Food) (hf : b.food = some f) :
    ∃ c, b.tick = some c ∧ c.stage = Stage.small_intestine ∧
      c.small_intestine.food.isSome = true ∧
      c.small_intestine.timer = b.small_intestine.timer ∧
      c.large_intestine = b.large_intestine ∧ c.env = b.env ∧ c.cond = b.cond := by
  obtain ⟨hs1, hs2, hs3, hs4, hs5, hs6, hs7, hs8, hs9, hs10, hs11, hs12, hs13⟩ := preTick_spec b
  obtain ⟨c2, hd, h1, h2, h3, h4, h5, h6⟩ := dispatchSeg_duodenum_finish b.preTick
    (by rw [hs1]; exact hst) (by rw [hs8]; exact ht) f (by rw [hs6]; exact hf)
  obtain ⟨hp1, hp2, hp3, hp4, hp5, hp6, hp7, hp8, hp9, hp10, hp11, hp12⟩ := postTick_spec c2
  refine ⟨c2.postTick, tick_of_dispatch _ _ hd, hp1.trans h1, hp9 ▸ h2, ?_,
    hp10.trans (h4.trans hs10), hp3.trans (h5.trans hs3), hp4.trans (h6.trans hs4)⟩
  rw [hp9, h3, hs9]

/-- One tick in the small-intestine stage while the timer is positive. -/
lemma tickSeg_small_run (b : Body) (hst : b.stage = Stage.small_intestine)
    (ht : 0 < b.small_intestine.timer) :
    ∃ c, b.tick = some c ∧ c.stage = Stage.small_intestine ∧
      c.small_intestine.food = b.small_intestine.food ∧
      c.small_intestine.timer = b.small_intestine.timer - 1 ∧
      c.large_intestine = b.large_intestine ∧ c.env = b.env ∧ c.cond = b.cond := by
  obtain ⟨hs1, hs2, hs3, hs4, hs5, hs6, hs7, hs8, hs9, hs10, hs11, hs12, hs13⟩ := preTick_spec b
  obtain ⟨c2, hd, h1, h2, h3, h4, h5, h6⟩ := dispatchSeg_small_run b.preTick
    (by rw [hs1]; exact hst) (by rw [hs9]; exact ht)
  obtain ⟨hp1, hp2, hp3, hp4, hp5, hp6, hp7, hp8, hp9, hp10, hp11, hp12⟩ := postTick_spec c2
  refine ⟨c2.postTick, tick_of_dispatch _ _ hd, hp1.trans h1, ?_, ?_,
    hp10.trans (h4.trans hs10), hp3.trans (h5.trans hs3), hp4.trans (h6.trans hs4)⟩
  · rw [hp9, h2, hs9]
  · rw [hp9, h3, hs9]

/-- The small-intestine-finishing tick: timer 0 and stored food, advancing to
the large intestine. -/
lemma tickSeg_small_finish (b : Body) (hst : b.stage = Stage.small_intestine)
    (f0 : Food) (hsf : b.small_intestine.food = some f0) (ht : b.small_intestine.timer = 0) :
    ∃ c, b.tick = some c ∧ c.stage = Stage.large_intestine ∧
      c.large_intestine = b.large_intestine ∧ c.env = b.env ∧ c.cond = b.cond := by
  obtain ⟨hs1, hs2, hs3, hs4, hs5, hs6, hs7, hs8, hs9, hs10, hs11, hs12, hs13⟩ := preTick_spec b
  obtain ⟨c2, hd, h1, h2, h3, h4⟩ := dispatchSeg_small_finish b.preTick
    (by rw [hs1]; exact hst) f0 (by rw [hs9]; exact hsf) (by rw [hs9]; exact ht)
  obtain ⟨hp1, hp2, hp3, hp4, hp5, hp6, hp7, hp8, hp9, hp10, hp11, hp12⟩ := postTick_spec c2
  exact ⟨c2.postTick, tick_of_dispatch _ _ hd, hp1.trans h1,
    hp10.trans (h2.trans hs10), hp3.trans (h3.trans hs3), hp4.trans (h4.trans hs4)⟩

/-- One tick in the large-intestine stage while the timer is positive. -/
lemma tickSeg_large_run (b : Body) (hst : b.stage = Stage.large_intestine)
    (ht : 0 < b.large_intestine.timer) :
    ∃ c, b.tick = some c ∧ c.stage = Stage.large_intestine ∧
      c.large_intestine.timer = b.large_intestine.timer - 1 ∧
      c.env = b.env ∧ c.cond = b.cond := by
  obtain ⟨hs1, hs2, hs3, hs4, hs5, hs6, hs7, hs8, hs9, hs10, hs11, hs12, hs13⟩ := preTick_spec b
  obtain ⟨c2, hd, h1, h2, h3, h4⟩ := dispatchSeg_large_run b.preTick
    (by rw [hs1]; exact hst) (by rw [hs10]; exact ht)
  obtain ⟨hp1, hp2, hp3, hp4, hp5, hp6, hp7, hp8, hp9, hp10, hp11, hp12⟩ := postTick_spec c2
  refine ⟨c2.postTick, tick_of_dispatch _ _ hd, hp1.trans h1, ?_,
    hp3.trans (h3.trans hs3), hp4.trans (h4.trans hs4)⟩
  rw [hp10, h2, hs10]

/-- The large-intestine-finishing tick: timer 0, advancing to the rectum. -/
lemma tickSeg_large_finish (b : Body) (hst : b.stage = Stage.large_intestine)
    (ht : b.large_intestine.timer = 0) :
    ∃ c, b.tick = some c ∧ c.stage = Stage.rectum := by
  obtain ⟨hs1, hs2, hs3, hs4, hs5, hs6, hs7, hs8, hs9, hs10, hs11, hs12, hs13⟩ := preTick_spec b
  obtain ⟨c2, hd, h1⟩ := dispatch_large_zero b.preTick
    (by rw [hs1]; exact hst) (by rw [hs10]; exact ht)
  obtain ⟨hp1, hp2, hp3, hp4, hp5, hp6, hp7, hp8, hp9, hp10, hp11, hp12⟩ := postTick_spec c2
  exact ⟨c2.postTick, tick_of_dispatch _ _ hd, hp1.trans h1⟩

/-- The rectum tick: cleanup and return to idle. -/
lemma tickSeg_rectum (b : Body) (hst : b.stage = Stage.rectum) :
    ∃ c, b.tick = some c ∧ c.stage = Stage.idle := by
  obtain ⟨hs1, hs2, hs3, hs4, hs5, hs6, hs7, hs8, hs9, hs10, hs11, hs12, hs13⟩ := preTick_spec b
  obtain ⟨c2, hd, h1, -, -, -, -⟩ := dispatch_rectum b.preTick (by rw [hs1]; exact hst)
  obtain ⟨hp1, hp2, hp3, hp4, hp5, hp6, hp7, hp8, hp9, hp10, hp11, hp12⟩ := postTick_spec c2
  exact ⟨c2.postTick, tick_of_dispatch _ _ hd, hp1.trans h1⟩

/-- Running the stomach stage from a digesting state with timer t: t + 1
ticks are observed in the stomach stage (t decrements plus the finishing
tick), after which the body is in the duodenum stage with food present and
the downstream organs untouched. -/
lemma runSeg_stomach (t : ℕ) : ∀ b : Body, b.stage = Stage.stomach →
    b.stomach.food.isSome = true → b.stomach.timer = t →
    ∃ c, b.run (t + 1) = some c ∧
      b.stageTrace (t + 1) = List.replicate (t + 1) Stage.stomach ∧
      c.stage = Stage.duodenum ∧ c.food.isSome = true ∧ c.duodenum = b.duodenum ∧
      c.small_intestine = b.small_intestine ∧ c.large_intestine = b.large_intestine ∧
      c.env = b.env ∧ c.cond = b.cond := by
  induction t with
  | zero =>
      intro b hst hsf ht
      obtain ⟨f0, hf0⟩ := Option.isSome_iff_exists.mp hsf
      obtain ⟨c, htk, h1, h2, h3, h4, h5, h6, h7⟩ := tickSeg_stomach_finish b hst f0 hf0 ht
      refine ⟨c, run_one b c htk, ?_, h1, h2, h3, h4, h5, h6, h7⟩
      rw [stageTrace_succ_some b c 0 htk, hst]
      rfl
  | succ t ih =>
      intro b hst hsf ht
      obtain ⟨f0, hf0⟩ := Option.isSome_iff_exists.mp hsf
      obtain ⟨c, htk, h1, h2, h3, h4, h5, h6, h7, h8, h9⟩ :=
        tickSeg_stomach_run b hst f0 hf0 (by omega)
      obtain ⟨d, hrun, htr, g1, g2, g3, g4, g5, g6, g7⟩ :=
        ih c h1 (by rw [h2]; exact hsf) (by omega)
      refine ⟨d, ?_, ?_, g1, g2, g3.trans h5, g4.trans h6, g5.trans h7,
        g6.trans h8, g7.trans h9⟩
      · rw [run_succ_some b c (t + 1) htk]; exact hrun
      · rw [stageTrace_succ_some b c (t + 1) htk, htr, hst]
        rfl

/-- Running the duodenum stage with timer t: t + 1 duodenum observations,
after which absorption has started with the small-intestine timer untouched. -/
lemma runSeg_duodenum (t : ℕ) : ∀ b : Body, b.stage = Stage.duodenum →
    b.duodenum.timer = t → b.food.isSome = true →
    ∃ c, b.run (t + 1) = some c ∧
      b.stageTrace (t + 1) = List.replicate (t + 1) Stage.duodenum ∧
      c.stage = Stage.small_intestine ∧ c.small_intestine.food.isSome = true ∧
      c.small_intestine.timer = b.small_intestine.timer ∧
      c.large_intestine = b.large_intestine ∧ c.env = b.env ∧ c.cond = b.cond := by
  induction t with
  | zero =>
      intro b hst ht hf
      obtain ⟨f, hf0⟩ := Option.isSome_iff_exists.mp hf
      obtain ⟨c, htk, h1, h2, h3, h4, h5, h6⟩ := tickSeg_duodenum_finish b hst ht f hf0
      refine ⟨c, run_one b c htk, ?_, h1, h2, h3, h4, h5, h6⟩
      rw [stageTrace_succ_some b c 0 htk, hst]
      rfl
  | succ t ih =>
      intro b hst ht hf
      obtain ⟨c, htk, h1, h2, h3, h4, h5, h6, h7⟩ := tickSeg_duodenum_run b hst (by omega)
      obtain ⟨d, hrun, htr, g1, g2, g3, g4, g5, g6⟩ :=
        ih c h1 (by omega) (by rw [h3]; exact hf)
      refine ⟨d, ?_, ?_, g1, g2, ?_, g4.trans h5, g5.trans h6, g6.trans h7⟩
      · rw [run_succ_some b c (t + 1) htk]; exact hrun
      · rw [stageTrace_succ_some b c (t + 1) htk, htr, hst]
        rfl
      · rw [g3, h4]

/-- Running the small-intestine stage with timer t: t + 1 observations, after
which the stage is the large intestine with its organ untouched. -/
lemma runSeg_small (t : ℕ) : ∀ b : Body, b.stage = Stage.small_intestine →
    b.small_intestine.timer = t → b.small_intestine.food.isSome = true →
    ∃ c, b.run (t + 1) = some c ∧
      b.stageTrace (t + 1) = List.replicate (t + 1) Stage.small_intestine ∧
      c.stage = Stage.large_intestine ∧ c.large_intestine = b.large_intestine ∧
      c.env = b.env ∧ c.cond = b.cond := by
  induction t with
  | zero =>
      intro b hst ht hf
      obtain ⟨f0, hf0⟩ := Option.isSome_iff_exists.mp hf
      obtain ⟨c, htk, h1, h2, h3, h4⟩ := tickSeg_small_finish b hst f0 hf0 ht
      refine ⟨c, run_one b c htk, ?_, h1, h2, h3, h4⟩
      rw [stageTrace_succ_some b c 0 htk, hst]
      rfl
  | succ t ih =>
      intro b hst ht hf
      obtain ⟨c, htk, h1, h2, h3, h4, h5, h6⟩ := tickSeg_small_run b hst (by omega)
      obtain ⟨d, hrun, htr, g1, g2, g3, g4⟩ :=
        ih c h1 (by omega) (by rw [h2]; exact hf)
      refine ⟨d, ?_, ?_, g1, g2.trans h4, g3.trans h5, g4.trans h6⟩
      · rw [run_succ_some b c (t + 1) htk]; exact hrun
      · rw [stageTrace_succ_some b c (t + 1) htk, htr, hst]
        rfl

/-- Running the large-intestine stage with timer t: t + 1 observations, after
which the stage is the rectum. -/
lemma runSeg_large (t : ℕ) : ∀ b : Body, b.stage = Stage.large_intestine →
    b.large_intestine.timer = t →
    ∃ c, b.run (t + 1) = some c ∧
      b.stageTrace (t + 1) = List.replicate (t + 1) Stage.large_intestine ∧
      c.stage = Stage.rectum := by
  induction t with
  | zero =>
      intro b hst ht
      obtain ⟨c, htk, h1⟩ := tickSeg_large_finish b hst ht
      refine ⟨c, run_one b c htk, ?_, h1⟩
      rw [stageTrace_succ_some b c 0 htk, hst]
      rfl
  | succ t ih =>
      intro b hst ht
      obtain ⟨c, htk, h1, h2, h3, h4⟩ := tickSeg_large_run b hst (by omega)
      obtain ⟨d, hrun, htr, g1⟩ := ih c h1 (by omega)
      refine ⟨d, ?_, ?_, g1⟩
      · rw [run_succ_some b c (t + 1) htk]; exact hrun
      · rw [stageTrace_succ_some b c (t + 1) htk, htr, hst]
        rfl

/-- C1 amended: for one uninterrupted meal on a fresh body (any fixed
environment and conditions, any food), the stages observed at successive
Body.tick calls are exactly mouth, esophagus, stomach repeated N1 + 2 times,
duodenum repeated 3 times, small_intestine repeated 19 times, large_intestine
repeated 37 times, rectum, idle, where N1 is the computed stomach duration:
each timer stage is observed once on its start or entry tick, once per timer
decrement, and once on its finishing tick, so the counts are N1 + 2, N2 + 1,
N3 + 1 and N4 + 1 rather than the base durations themselves.  The stage never
moves backwards and never skips a stage. -/
theorem meal_stage_sequence (env : Environment) (cond : Conditions) (f : Food) :
    ((Body.init env cond).eat f).stageTrace (computedStomachTicks cond env + 65) =
      [Stage.mouth, Stage.esophagus]
        ++ List.replicate (computedStomachTicks cond env + 2) Stage.stomach
        ++ List.replicate 3 Stage.duodenum
        ++ List.replicate 19 Stage.small_intestine
        ++ List.replicate 37 Stage.large_intestine
        ++ [Stage.rectum, Stage.idle] := by
  obtain ⟨c1, ht1, a1, a2, a3, a4, a5, a6, a7, a8⟩ :=
    tickSeg_mouth ((Body.init env cond).eat f) rfl
      { name := f.name, carbs := f.carbs, proteins := f.proteins, fats := f.fats,
        fiber := f.fiber } rfl
  obtain ⟨c2, ht2, b1, b2, b3, b4, b5, b6, b7, b8, b9⟩ := tickSeg_esophagus c1 a1
  have hc2sto : c2.stomach = Stomach.init := (b3.trans a3).trans rfl
  have hc2cond : c2.cond = cond := (b8.trans a8).trans rfl
  have hc2env : c2.env = env := (b7.trans a7).trans rfl
  obtain ⟨g, hg⟩ := Option.isSome_iff_exists.mp a2
  obtain ⟨c3, ht3, d1, d2, d3, d4, d5, d6, d7, d8, d9⟩ :=
    tickSeg_stomach_start c2 b1 (by rw [hc2sto]; rfl)
      (by rw [b9]; simp) hc2sto g (b2.trans hg)
  have htimer : c3.stomach.timer = computedStomachTicks cond env := by
    rw [d3, hc2cond, hc2env]
  obtain ⟨c4, hr4, htr4, e1, e2, e3, e4, e5, e6, e7⟩ :=
    runSeg_stomach (computedStomachTicks cond env) c3 d1 d2 htimer
  have hc4duo : c4.duodenum = Duodenum.init :=
    ((e3.trans d5).trans (b4.trans a4)).trans rfl
  obtain ⟨c5, hr5, htr5, k1, k2, k3, k4, k5, k6⟩ :=
    runSeg_duodenum 2 c4 e1 (by rw [hc4duo]; rfl) e2
  have hc4si : c4.small_intestine = SmallIntestine.init :=
    ((e4.trans d6).trans (b5.trans a5)).trans rfl
  have hc5si : c5.small_intestine.timer = 18 := by rw [k3, hc4si]; rfl
  obtain ⟨c6, hr6, htr6, l1, l2, l3, l4⟩ := runSeg_small 18 c5 k1 hc5si k2
  have hc5li : c5.large_intestine = LargeIntestine.init :=
    ((k4.trans e5).trans ((d7.trans b6).trans a6)).trans rfl
  have hc6li : c6.large_intestine.timer = 36 := by rw [l2, hc5li]; rfl
  obtain ⟨c7, hr7, htr7, m1⟩ := runSeg_large 36 c6 l1 hc6li
  obtain ⟨c8, ht8, n1⟩ := tickSeg_rectum c7 m1
  have harith : computedStomachTicks cond env + 65
      = 1 + (1 + (1 + ((computedStomachTicks cond env + 1)
        + ((2 + 1) + ((18 + 1) + ((36 + 1) + (1 + 1))))))) := by omega
  rw [harith]
  rw [stageTrace_add 1 ((Body.init env cond).eat f) c1 _ (run_one _ c1 ht1)]
  rw [stageTrace_add 1 c1 c2 _ (run_one c1 c2 ht2)]
  rw [stageTrace_add 1 c2 c3 _ (run_one c2 c3 ht3)]
  rw [stageTrace_add (computedStomachTicks cond env + 1) c3 c4 _ hr4]
  rw [stageTrace_add (2 + 1) c4 c5 _ hr5]
  rw [stageTrace_add (18 + 1) c5 c6 _ hr6]
  rw [stageTrace_add (36 + 1) c6 c7 _ hr7]
  rw [stageTrace_add 1 c7 c8 _ (run_one c7 c8 ht8)]
  rw [stageTrace_one, stageTrace_one, stageTrace_one, stageTrace_one, stageTrace_one]
  rw [htr4, htr5, htr6, htr7]
  rw [show ((Body.init env cond).eat f).stage = Stage.mouth from rfl, a1, b1, m1, n1]
  rw [show List.replicate (computedStomachTicks cond env + 2) Stage.stomach
      = Stage.stomach :: List.replicate (computedStomachTicks cond env + 1) Stage.stomach
      from rfl]
  simp

/-- The exact stage sequence the claim predicts for the default Pasta meal,
with N1 the computed stomach duration (4 here) and N2..N4 the base durations
2, 18 and 36. -/
def claimedMealTrace : List Stage :=
  [Stage.mouth, Stage.esophagus]
    ++ List.replicate (computedStomachTicks condNone envDefault) Stage.stomach
    ++ List.replicate 2 Stage.duodenum
    ++ List.replicate 18 Stage.small_intestine
    ++ List.replicate 36 Stage.large_intestine
    ++ [Stage.rectum, Stage.idle]

/-- Counterexample to C1 as stated: for the default Pasta meal the computed
stomach duration is 4 (gastrin is set High on stomach entry before
start_digestion runs), and the observed stage sequence is mouth, esophagus,
stomach 6 times, duodenum 3 times, small_intestine 19 times, large_intestine
37 times, rectum, idle — the duodenum is observed 3 times, not N2 = 2, so the
observed sequence differs from the claimed one. -/
theorem meal_trace_counterexample :
    computedStomachTicks condNone envDefault = 4 ∧
    mealBody.stageTrace 69 =
      [Stage.mouth, Stage.esophagus]
        ++ List.replicate 6 Stage.stomach
        ++ List.replicate 3 Stage.duodenum
        ++ List.replicate 19 Stage.small_intestine
        ++ List.replicate 37 Stage.large_intestine
        ++ [Stage.rectum, Stage.idle] ∧
    (mealBody.stageTrace 69).count Stage.duodenum = 3 ∧
    claimedMealTrace.count Stage.duodenum = 2 ∧
    mealBody.stageTrace 69 ≠ claimedMealTrace := by
  refine ⟨?_, ?_, ?_, ?_, ?_⟩
  · with_unfolding_all rfl
  · with_unfolding_all rfl
  · with_unfolding_all rfl
  · with_unfolding_all rfl
  · intro hEq
    have h1 : (mealBody.stageTrace 69).length = 69 := by with_unfolding_all rfl
    have h2 : claimedMealTrace.length = 64 := by with_unfolding_all rfl
    rw [hEq, h2] at h1
    exact absurd h1 (by decide)
